import Mathlib

/-!
# Lane-runner game (`src/game.js`): shallow embedding and verified properties

The script keeps its whole state in a handful of global objects (`game`, `player`,
`road`, `keys`, the three pools `obstacles`, `coins`, `particles`) plus what it
reaches in the browser (`canvas`, a few DOM elements, `localStorage`,
`Math.random`, `requestAnimationFrame`).  Here all of that is one record `State`,
and every function of the script is a function `State → State`.

Modelling decisions:

* JavaScript numbers are exact rationals (`ℚ`); binary floating-point rounding is
  not modelled.  `Math.floor` is `Int.floor`.  The score and best score only ever
  receive integer values and are `Int`.
* A property that an object literal does not have reads as `undefined`, and
  arithmetic on `undefined` gives `NaN`; the operands of `checkCollision` are
  therefore `JSNum` (a rational or `NaN`), with `NaN` comparing false.
* `Math.random()` reads the next value of a stream `rand` held in the state.
* `Array.prototype.forEach` is modelled as specified by the language: the length
  is read once, the index runs from `0` to that length, and an index that is no
  longer inside the (possibly spliced) array is skipped.
* Canvas drawing (`draw`, `drawCar`, `drawCoin`), the score/speed/best text
  displays and the oscillator of `playSound` have no effect on the state read by
  the simulation; of these only the cue played is recorded (`audio`).
-/

namespace BinkRacing

/-! ## Numbers as seen by `checkCollision` -/

/-- A JavaScript number read from an object: a rational, or `NaN`. -/
inductive JSNum where
  | num (q : ℚ)
  | nan
  deriving DecidableEq

/-- JavaScript `a + b` on numbers: `NaN` is absorbing. -/
def JSNum.add : JSNum → JSNum → JSNum
  | .num a, .num b => .num (a + b)
  | _, _ => .nan

/-- JavaScript `a < b` on numbers: false as soon as one side is `NaN`. -/
def JSNum.lt : JSNum → JSNum → Bool
  | .num a, .num b => decide (a < b)
  | _, _ => false

/-- JavaScript `a > b` on numbers: false as soon as one side is `NaN`. -/
def JSNum.gt : JSNum → JSNum → Bool
  | .num a, .num b => decide (a > b)
  | _, _ => false

/-- The four properties `checkCollision` reads from each argument. -/
structure Rect where
  x : JSNum
  y : JSNum
  width : JSNum
  height : JSNum

/-- A rectangle whose four properties are all numbers. -/
def Rect.ofNums (x y width height : ℚ) : Rect :=
  { x := .num x, y := .num y, width := .num width, height := .num height }

/-- Source `checkCollision(rect1, rect2)`, lines 360-365. -/
def checkCollision (rect1 rect2 : Rect) : Bool :=
  JSNum.lt rect1.x (JSNum.add rect2.x rect2.width) &&
  JSNum.gt (JSNum.add rect1.x rect1.width) rect2.x &&
  JSNum.lt rect1.y (JSNum.add rect2.y rect2.height) &&
  JSNum.gt (JSNum.add rect1.y rect1.height) rect2.y

/-! ## The global objects -/

/-- The `canvas` element: only its size is read. -/
structure Canvas where
  width : ℚ
  height : ℚ

/-- The `game` object, lines 15-26. -/
structure Game where
  running : Bool
  paused : Bool
  score : Int
  bestScore : Int
  speed : ℚ
  baseSpeed : ℚ
  maxSpeed : ℚ
  speedIncrement : ℚ
  difficulty : String
  soundEnabled : Bool

/-- The `player` object, lines 29-36. -/
structure Player where
  width : ℚ
  height : ℚ
  x : ℚ
  y : ℚ
  speed : ℚ
  color : String

/-- One element of `road.stripes`. -/
structure Stripe where
  y : ℚ

/-- The `road` object, lines 39-46. -/
structure Road where
  lanes : ℚ
  laneWidth : ℚ
  stripeHeight : ℚ
  stripeGap : ℚ
  stripes : List Stripe
  offset : ℚ

/-- An element of `obstacles`, as pushed by `spawnObstacle`. -/
structure Obstacle where
  x : ℚ
  y : ℚ
  width : ℚ
  height : ℚ
  color : Option String

/-- An element of `coins`, as pushed by `spawnCoin`: it has `size`, and neither
`width` nor `height`. -/
structure Coin where
  x : ℚ
  y : ℚ
  size : ℚ
  rotation : ℚ

/-- An element of `particles`, as pushed by `collectCoin`. -/
structure Particle where
  x : ℚ
  y : ℚ
  speedX : ℚ
  speedY : ℚ
  size : ℚ
  color : String
  life : ℚ
  alpha : ℚ

/-- The `keys` object, lines 54-58. -/
structure Keys where
  left : Bool
  right : Bool
  pause : Bool

/-- The part of the document the script reads or writes and that is kept here:
the value of the `difficulty` select, the `hidden` class of the three overlays
and the text of `game-over-message`. -/
structure Dom where
  difficulty : String
  startMenuHidden : Bool
  gameOverHidden : Bool
  pauseMenuHidden : Bool
  gameOverMessage : Option String

/-- Everything the script can read or write. `storage` lists the values passed
to `localStorage.setItem('binkRacingBest', _)`, latest first; `audio` lists the
cues `playSound` played; `frameRequests` counts `requestAnimationFrame` calls. -/
structure State where
  canvas : Canvas
  game : Game
  player : Player
  road : Road
  obstacles : List Obstacle
  coins : List Coin
  particles : List Particle
  keys : Keys
  lastTime : ℚ
  dom : Dom
  storage : List Int
  audio : List String
  rand : Nat → ℚ
  randPos : Nat
  frameRequests : Nat

/-- The player object as an argument of `checkCollision`. -/
def Player.rect (p : Player) : Rect :=
  { x := .num p.x, y := .num p.y, width := .num p.width, height := .num p.height }

/-- An obstacle object as an argument of `checkCollision`. -/
def Obstacle.rect (o : Obstacle) : Rect :=
  { x := .num o.x, y := .num o.y, width := .num o.width, height := .num o.height }

/-- A coin object as an argument of `checkCollision`: `coin.width` and
`coin.height` are `undefined`, so every sum they enter is `NaN`. -/
def Coin.rect (c : Coin) : Rect :=
  { x := .num c.x, y := .num c.y, width := .nan, height := .nan }

/-- The square the specification means by a coin's rectangle: `size` by `size`
at the coin's `x`, `y`. -/
def Coin.square (c : Coin) : Rect :=
  Rect.ofNums c.x c.y c.size c.size

/-! ## Browser services -/

/-- `Math.random()`: the value returned. -/
def randomValue (s : State) : ℚ := s.rand s.randPos

/-- `Math.random()`: the state afterwards. -/
def randomNext (s : State) : State := { s with randPos := s.randPos + 1 }

/-- JavaScript `xs[i]` for an integer-valued number `i`: `undefined` outside the array. -/
def jsIndex {α : Type} (xs : List α) (i : Int) : Option α :=
  if i < 0 then none else xs[i.toNat]?

/-- Source `playSound(type)`, lines 443-470: nothing when muted. -/
def playSound (type : String) (s : State) : State :=
  if !s.game.soundEnabled then s
  else if type = "coin" ∨ type = "crash" then { s with audio := s.audio ++ [type] }
  else s

/-- `Array.prototype.forEach` from index `k` with `n` indices still to go:
`arr` reads the array out of the state, `cb` is the callback. -/
def forEachFrom {α : Type} (arr : State → List α) (cb : α → Nat → State → State) :
    Nat → Nat → State → State
  | 0, _, s => s
  | n + 1, k, s =>
    match (arr s)[k]? with
    | some a => forEachFrom arr cb n (k + 1) (cb a k s)
    | none => forEachFrom arr cb n (k + 1) s

/-- `arr.forEach(cb)`: the length is read once, before the first call. -/
def forEach {α : Type} (arr : State → List α) (cb : α → Nat → State → State)
    (s : State) : State :=
  forEachFrom arr cb (arr s).length 0 s

/-! ## The script's functions -/

/-- The stripes built by the loop of `init`, lines 67-72. -/
def initStripes (canvas : Canvas) (road : Road) : List Stripe :=
  (List.range (Int.toNat ⌈canvas.height / (road.stripeHeight + road.stripeGap) + 2⌉)).map
    fun i => { y := (i : ℚ) * (road.stripeHeight + road.stripeGap) - road.stripeHeight }

/-- Source `init()`, lines 61-75. -/
def init (s : State) : State :=
  let laneWidth := s.canvas.width / s.road.lanes
  let x := ((⌊s.road.lanes / 2⌋ : Int) : ℚ) * laneWidth + laneWidth / 2 - s.player.width / 2
  let y := s.canvas.height - s.player.height - 50
  let road := { s.road with laneWidth := laneWidth }
  { s with
    road := { road with stripes := initStripes s.canvas road }
    player := { s.player with x := x, y := y } }

/-- The text shown for a new best score. -/
def newBestMessage : String := "🎉 NEW BEST SCORE! 🎉"

/-- The `messages` array of `gameOver`. -/
def messages : List String :=
  ["Nice try! Keep racing!", "Almost there! Try again!", "You can do better!",
   "Practice makes perfect!", "Speed demon in training!"]

/-- Source `gameOver()`, lines 390-415. -/
def gameOver (s : State) : State :=
  let s := { s with game := { s.game with running := false, paused := false } }
  let s :=
    if s.game.score > s.game.bestScore then
      { s with
        game := { s.game with bestScore := s.game.score }
        storage := s.game.score :: s.storage
        dom := { s.dom with gameOverMessage := some newBestMessage } }
    else
      let r := randomValue s
      let s := randomNext s
      { s with dom := { s.dom with
          gameOverMessage := jsIndex messages ⌊r * (messages.length : ℚ)⌋ } }
  let s := { s with dom := { s.dom with gameOverHidden := false } }
  playSound "crash" s

/-- One particle of the burst of `collectCoin`: three `Math.random()` calls, in
the order `speedX`, `speedY`, `size`. -/
def pushParticle (coin : Coin) (s : State) : State :=
  let r1 := randomValue s
  let s := randomNext s
  let r2 := randomValue s
  let s := randomNext s
  let r3 := randomValue s
  let s := randomNext s
  { s with particles := s.particles ++ [{
      x := coin.x + coin.size / 2
      y := coin.y + coin.size / 2
      speedX := (r1 - 1 / 2) * 4
      speedY := (r2 - 1 / 2) * 4
      size := r3 * 4 + 2
      color := "#ffd700"
      life := 30
      alpha := 1 }] }

/-- Source `collectCoin(coin)`, lines 368-387. -/
def collectCoin (coin : Coin) (s : State) : State :=
  let s := { s with game := { s.game with score := s.game.score + 100 } }
  let s := Nat.iterate (pushParticle coin) 10 s
  playSound "coin" s

/-- The `colors` array of `spawnObstacle`. -/
def colors : List String := ["#e74c3c", "#3498db", "#2ecc71", "#9b59b6", "#f39c12"]

/-- Source `spawnObstacle()`, lines 334-345. -/
def spawnObstacle (s : State) : State :=
  let r1 := randomValue s
  let s := randomNext s
  let lane : ℚ := ((⌊r1 * s.road.lanes⌋ : Int) : ℚ)
  let r2 := randomValue s
  let s := randomNext s
  { s with obstacles := s.obstacles ++ [{
      x := lane * s.road.laneWidth + s.road.laneWidth / 2 - s.player.width / 2
      y := -s.player.height
      width := s.player.width
      height := s.player.height
      color := jsIndex colors ⌊r2 * (colors.length : ℚ)⌋ }] }

/-- Source `spawnCoin()`, lines 348-357. -/
def spawnCoin (s : State) : State :=
  let r := randomValue s
  let s := randomNext s
  let lane : ℚ := ((⌊r * s.road.lanes⌋ : Int) : ℚ)
  { s with coins := s.coins ++ [{
      x := lane * s.road.laneWidth + s.road.laneWidth / 2 - 10
      y := -20
      size := 20
      rotation := 0 }] }

/-- The callback of `road.stripes.forEach`, lines 144-149. -/
def stripeCallback (speed : ℚ) (canvas : Canvas) (road : Road) (stripe : Stripe) : Stripe :=
  let stripe : Stripe := { y := stripe.y + speed }
  if stripe.y > canvas.height then { y := -road.stripeHeight } else stripe

/-- The callback of `obstacles.forEach`, lines 173-185. The object is updated in
place at `index`; `splice(index, 1)` removes what is at `index`; the collision
test still reads the callback's own `obstacle`. -/
def obstacleCallback (obstacle : Obstacle) (index : Nat) (s : State) : State :=
  let obstacle := { obstacle with y := obstacle.y + s.game.speed }
  let s := { s with obstacles := s.obstacles.set index obstacle }
  let s := if obstacle.y > s.canvas.height then
      { s with obstacles := s.obstacles.eraseIdx index } else s
  if checkCollision s.player.rect obstacle.rect then gameOver s else s

/-- The callback of `coins.forEach`, lines 188-202. -/
def coinCallback (coin : Coin) (index : Nat) (s : State) : State :=
  let coin := { coin with y := coin.y + s.game.speed, rotation := coin.rotation + 1 / 10 }
  let s := { s with coins := s.coins.set index coin }
  let s := if coin.y > s.canvas.height then
      { s with coins := s.coins.eraseIdx index } else s
  if checkCollision s.player.rect coin.rect then
    let s := collectCoin coin s
    { s with coins := s.coins.eraseIdx index }
  else s

/-- The callback of `particles.forEach`, lines 205-214. -/
def particleCallback (particle : Particle) (index : Nat) (s : State) : State :=
  let particle := { particle with y := particle.y + particle.speedY }
  let particle := { particle with x := particle.x + particle.speedX }
  let particle := { particle with life := particle.life - 1 }
  let particle := { particle with alpha := particle.life / 30 }
  let s := { s with particles := s.particles.set index particle }
  if particle.life ≤ 0 then { s with particles := s.particles.eraseIdx index } else s

/-- Lines 130-134 of `update`: the speed ramp and the score accrual. -/
def updateClock (s : State) : State :=
  let speed := min (s.game.speed + s.game.speedIncrement) s.game.maxSpeed
  { s with game := { s.game with speed := speed, score := s.game.score + ⌊speed / 10⌋ } }

/-- Lines 137-149 of `update`: the road offset and the stripes. -/
def updateRoad (s : State) : State :=
  let offset := s.road.offset + s.game.speed
  let offset := if offset ≥ s.road.stripeHeight + s.road.stripeGap then 0 else offset
  { s with road := { s.road with
      offset := offset
      stripes := s.road.stripes.map (stripeCallback s.game.speed s.canvas s.road) } }

/-- Lines 151-160 of `update`: the player's move and the clamp. -/
def updatePlayer (s : State) : State :=
  let x := s.player.x
  let x := if s.keys.left ∧ x > 0 then x - s.player.speed else x
  let x := if s.keys.right ∧ x < s.canvas.width - s.player.width then x + s.player.speed else x
  let x := max 0 (min x (s.canvas.width - s.player.width))
  { s with player := { s.player with x := x } }

/-- Lines 162-170 of `update`: the two spawn trials. -/
def updateSpawn (s : State) : State :=
  let r := randomValue s
  let s := randomNext s
  let s := if r < 2 / 100 then spawnObstacle s else s
  let r := randomValue s
  let s := randomNext s
  if r < 15 / 1000 then spawnCoin s else s

/-- Lines 172-185 of `update`: the obstacle pass. -/
def updateObstacles (s : State) : State :=
  forEach (fun s => s.obstacles) obstacleCallback s

/-- Lines 187-202 of `update`: the coin pass. -/
def updateCoins (s : State) : State :=
  forEach (fun s => s.coins) coinCallback s

/-- Lines 204-214 of `update`: the particle pass. -/
def updateParticles (s : State) : State :=
  forEach (fun s => s.particles) particleCallback s

/-- Source `update(deltaTime)`, lines 129-215; `deltaTime` is not read. -/
def update (_deltaTime : ℚ) (s : State) : State :=
  updateParticles (updateCoins (updateObstacles (updateSpawn (updatePlayer
    (updateRoad (updateClock s))))))

/-- Source `gameLoop(timestamp)`, lines 114-126: one frame. -/
def gameLoop (timestamp : ℚ) (s : State) : State :=
  if !s.game.running then s
  else
    let deltaTime := timestamp - s.lastTime
    let s := { s with lastTime := timestamp }
    let s := if !s.game.paused then update deltaTime s else s
    { s with frameRequests := s.frameRequests + 1 }

/-- Lines 79-95 of `startGame`: the select's value and the `switch` on it, which
has no `default` branch. -/
def setDifficulty (g : Game) (value : String) : Game :=
  let g := { g with difficulty := value }
  if g.difficulty = "easy" then { g with baseSpeed := 2, maxSpeed := 10 }
  else if g.difficulty = "medium" then { g with baseSpeed := 3, maxSpeed := 15 }
  else if g.difficulty = "hard" then { g with baseSpeed := 4, maxSpeed := 20 }
  else g

/-- Lines 79-108 of `startGame`: everything it does before it runs the first
frame itself. -/
def startGameReset (s : State) : State :=
  let g := setDifficulty s.game s.dom.difficulty
  let g := { g with running := true, paused := false, score := 0, speed := g.baseSpeed }
  let s := { s with
    game := g
    obstacles := []
    coins := []
    particles := []
    dom := { s.dom with startMenuHidden := true, gameOverHidden := true } }
  init s

/-- Source `startGame()`, lines 78-110: the reset, `init()`, and then
`gameLoop()` with its default `timestamp = 0`, which runs the first `update`
before `startGame` returns. -/
def startGame (s : State) : State :=
  gameLoop 0 (startGameReset s)

/-- Source `togglePause()`, lines 418-428. -/
def togglePause (s : State) : State :=
  if !s.game.running then s
  else
    let s := { s with game := { s.game with paused := !s.game.paused } }
    if s.game.paused then { s with dom := { s.dom with pauseMenuHidden := false } }
    else { s with dom := { s.dom with pauseMenuHidden := true } }

/-- The click handler of `quit-btn`, lines 476-481. -/
def quit (s : State) : State :=
  { s with
    game := { s.game with running := false, paused := false }
    dom := { s.dom with pauseMenuHidden := true, startMenuHidden := false } }

/-- The top-level object literals of the script (lines 15-58) after
`resizeCanvas()`, for a container `clientWidth` wide, a stored best score
`best`, a document `dom` and a random stream `rand`. -/
def initialState (clientWidth : ℚ) (best : Int) (dom : Dom) (rand : Nat → ℚ) : State :=
  { canvas := { width := clientWidth, height := 600 }
    game := { running := false, paused := false, score := 0, bestScore := best, speed := 0,
              baseSpeed := 2, maxSpeed := 15, speedIncrement := 1 / 1000,
              difficulty := "medium", soundEnabled := true }
    player := { width := 40, height := 70, x := 0, y := 0, speed := 8, color := "#ff6b6b" }
    road := { lanes := 5, laneWidth := 0, stripeHeight := 40, stripeGap := 20,
              stripes := [], offset := 0 }
    obstacles := []
    coins := []
    particles := []
    keys := { left := false, right := false, pause := false }
    lastTime := 0
    dom := dom
    storage := []
    audio := []
    rand := rand
    randPos := 0
    frameRequests := 0 }

/-- A run of `update` ticks, one per `deltaTime` of the list, oldest first. -/
def runTicks (deltaTimes : List ℚ) (s : State) : State :=
  deltaTimes.foldl (fun s deltaTime => update deltaTime s) s

/-- A run of `gameLoop` frames, one per timestamp of the list, oldest first. -/
def runFrames (timestamps : List ℚ) (s : State) : State :=
  timestamps.foldl (fun s timestamp => gameLoop timestamp s) s

/-! ## Projections used to state what a step leaves alone -/

/-- The fields no pool pass and no spawn writes. -/
def fixedPart (s : State) : Canvas × Player × Road × Keys × ℚ × ℚ :=
  (s.canvas, s.player, s.road, s.keys, s.lastTime, s.game.speed)

/-- The numeric fields of `game` that only `startGame` and the clock write. -/
def gameNumbers (s : State) : Int × ℚ × ℚ × ℚ × ℚ :=
  (s.game.score, s.game.speed, s.game.baseSpeed, s.game.maxSpeed, s.game.speedIncrement)

/-! ## Concrete states used to exercise the theorems -/

/-- A document with the start menu showing and `value` chosen in the select. -/
def demoDom (value : String) : Dom :=
  { difficulty := value, startMenuHidden := false, gameOverHidden := true,
    pauseMenuHidden := true, gameOverMessage := none }

/-- The script as loaded in a 400 pixel wide container, with no stored best
score, `value` chosen in the select and `Math.random()` always returning `r`. -/
def loadedState (value : String) (r : ℚ) : State :=
  initialState 400 0 (demoDom value) (fun _ => r)

/-- A state with the given score and best score, otherwise as loaded. -/
def scoredState (score best : Int) : State :=
  { loadedState "medium" (1 / 2) with
    game := { (loadedState "medium" (1 / 2)).game with
      running := true, score := score, bestScore := best } }

/-- A paused session, otherwise as loaded. -/
def pausedState : State :=
  { loadedState "medium" (1 / 2) with
    game := { (loadedState "medium" (1 / 2)).game with
      running := true, paused := true, speed := 3, baseSpeed := 3 } }

/-- A running session whose speed is `speed` and already at its cap. -/
def cappedState (speed : ℚ) : State :=
  { loadedState "medium" (1 / 2) with
    game := { (loadedState "medium" (1 / 2)).game with
      running := true, speed := speed, maxSpeed := speed } }

/-- A running medium session on a 400 by 600 canvas: the player, at `x = 140`
with the left key held, is next to an obstacle in lane 1 (`x = 100`, `y = 470`),
and the obstacle stored just before that one (lane 2, `y = 599`) is about to
leave the bottom of the canvas. -/
def skipState : State :=
  { canvas := { width := 400, height := 600 }
    game := { running := true, paused := false, score := 0, bestScore := 0, speed := 3,
              baseSpeed := 3, maxSpeed := 15, speedIncrement := 1 / 1000,
              difficulty := "medium", soundEnabled := true }
    player := { width := 40, height := 70, x := 140, y := 480, speed := 8, color := "#ff6b6b" }
    road := { lanes := 5, laneWidth := 80, stripeHeight := 40, stripeGap := 20,
              stripes := [], offset := 0 }
    obstacles := [{ x := 180, y := 599, width := 40, height := 70, color := some "#e74c3c" },
                  { x := 100, y := 470, width := 40, height := 70, color := some "#3498db" }]
    coins := []
    particles := []
    keys := { left := true, right := false, pause := false }
    lastTime := 0
    dom := demoDom "medium"
    storage := []
    audio := []
    rand := fun _ => 1 / 2
    randPos := 0
    frameRequests := 0 }

/-- A running medium session on a 400 by 600 canvas: the player stands where
`init` put it (`x = 180`, `y = 480`) and a coin spawned in the same lane
(`x = 190`, `size = 20`) has come down to `y = 470`. -/
def coinState : State :=
  { canvas := { width := 400, height := 600 }
    game := { running := true, paused := false, score := 0, bestScore := 0, speed := 3,
              baseSpeed := 3, maxSpeed := 15, speedIncrement := 1 / 1000,
              difficulty := "medium", soundEnabled := true }
    player := { width := 40, height := 70, x := 180, y := 480, speed := 8, color := "#ff6b6b" }
    road := { lanes := 5, laneWidth := 80, stripeHeight := 40, stripeGap := 20,
              stripes := [], offset := 0 }
    obstacles := []
    coins := [{ x := 190, y := 470, size := 20, rotation := 0 }]
    particles := []
    keys := { left := false, right := false, pause := false }
    lastTime := 0
    dom := demoDom "medium"
    storage := []
    audio := []
    rand := fun _ => 1 / 2
    randPos := 0
    frameRequests := 0 }

/-- The obstacle pass as the specification words it: every obstacle's `y` is
increased by `speed` once, then exactly those with `y > height` are removed,
the others keeping their order. -/
def obstaclePassSpec (speed height : ℚ) (pool : List Obstacle) : List Obstacle :=
  (pool.map fun o => { o with y := o.y + speed }).filter fun o => !decide (o.y > height)

/-- A running medium session on a 400 by 600 canvas with score 50 over a best
score of 0: the player, at `x = 140` with the left key held, is about to move
into lane 1, where two obstacles spawned shortly after one another stand at
`y = 500` and `y = 440`. -/
def doubleHitState : State :=
  { canvas := { width := 400, height := 600 }
    game := { running := true, paused := false, score := 50, bestScore := 0, speed := 3,
              baseSpeed := 3, maxSpeed := 15, speedIncrement := 1 / 1000,
              difficulty := "medium", soundEnabled := true }
    player := { width := 40, height := 70, x := 140, y := 480, speed := 8, color := "#ff6b6b" }
    road := { lanes := 5, laneWidth := 80, stripeHeight := 40, stripeGap := 20,
              stripes := [], offset := 0 }
    obstacles := [{ x := 100, y := 500, width := 40, height := 70, color := some "#e74c3c" },
                  { x := 100, y := 440, width := 40, height := 70, color := some "#3498db" }]
    coins := []
    particles := []
    keys := { left := true, right := false, pause := false }
    lastTime := 0
    dom := demoDom "medium"
    storage := []
    audio := []
    rand := fun _ => 1 / 2
    randPos := 0
    frameRequests := 0 }

/-- A running medium session with three particles in the pool: two in their
last tick and one with 29 ticks left. -/
def sparkState : State :=
  { coinState with
    coins := []
    particles :=
      [{ x := 200, y := 480, speedX := 1, speedY := -1, size := 3, color := "#ffd700",
         life := 1, alpha := 1 / 30 },
       { x := 201, y := 481, speedX := -1, speedY := 1, size := 4, color := "#ffd700",
         life := 1, alpha := 1 / 30 },
       { x := 202, y := 482, speedX := 2, speedY := 0, size := 5, color := "#ffd700",
         life := 29, alpha := 29 / 30 }] }

/-! ## Generic facts about `forEach` -/

/-- A projection of the state that no callback changes is unchanged by the loop. -/
theorem forEachFrom_proj {α β : Type} (arr : State → List α) (cb : α → Nat → State → State)
    (f : State → β) (h : ∀ a k s, f (cb a k s) = f s) :
    ∀ n k s, f (forEachFrom arr cb n k s) = f s := by
  intro n
  induction n with
  | zero => intro k s; rfl
  | succ n ih =>
    intro k s
    simp only [forEachFrom]
    cases (arr s)[k]? with
    | none => exact ih (k + 1) s
    | some a => exact (ih (k + 1) (cb a k s)).trans (h a k s)

/-- A property of the state that every callback keeps is kept by the loop. -/
theorem forEachFrom_inv {α : Type} (arr : State → List α) (cb : α → Nat → State → State)
    (P : State → Prop) (h : ∀ a k s, P s → P (cb a k s)) :
    ∀ n k s, P s → P (forEachFrom arr cb n k s) := by
  intro n
  induction n with
  | zero => intro k s hs; exact hs
  | succ n ih =>
    intro k s hs
    simp only [forEachFrom]
    cases (arr s)[k]? with
    | none => exact ih (k + 1) s hs
    | some a => exact ih (k + 1) (cb a k s) (h a k s hs)

/-! ## Collision test -/

theorem JSNum.gt_eq_lt (a b : JSNum) : JSNum.gt a b = JSNum.lt b a := by
  cases a <;> cases b <;> simp [JSNum.gt, JSNum.lt]

/-- The test is symmetric on all operands, `NaN` included. -/
theorem checkCollision_comm (a b : Rect) : checkCollision a b = checkCollision b a := by
  simp only [checkCollision, JSNum.gt_eq_lt]
  cases JSNum.lt a.x (b.x.add b.width) <;> cases JSNum.lt b.x (a.x.add a.width) <;>
    cases JSNum.lt a.y (b.y.add b.height) <;> cases JSNum.lt b.y (a.y.add a.height) <;> rfl

/-- On numeric rectangles the test is the four-inequality conjunction. -/
theorem checkCollision_ofNums (x1 y1 w1 h1 x2 y2 w2 h2 : ℚ) :
    checkCollision (Rect.ofNums x1 y1 w1 h1) (Rect.ofNums x2 y2 w2 h2) = true ↔
      (x1 < x2 + w2 ∧ x1 + w1 > x2 ∧ y1 < y2 + h2 ∧ y1 + h1 > y2) := by
  simp [checkCollision, Rect.ofNums, JSNum.lt, JSNum.gt, JSNum.add, and_assoc]

/-- A coin never passes the test: its `width` and `height` are `undefined`. -/
theorem checkCollision_coin (r : Rect) (c : Coin) : checkCollision r c.rect = false := by
  cases hx : r.x <;> simp [checkCollision, Coin.rect, JSNum.lt, JSNum.add, hx]

/-! ## What each step of `update` leaves alone -/

theorem playSound_fixed (t : String) (s : State) :
    (playSound t s).game = s.game ∧ (playSound t s).canvas = s.canvas ∧
    (playSound t s).player = s.player ∧ (playSound t s).road = s.road ∧
    (playSound t s).keys = s.keys ∧ (playSound t s).obstacles = s.obstacles ∧
    (playSound t s).coins = s.coins ∧ (playSound t s).particles = s.particles ∧
    (playSound t s).lastTime = s.lastTime ∧ (playSound t s).storage = s.storage ∧
    (playSound t s).dom = s.dom ∧ (playSound t s).rand = s.rand ∧
    (playSound t s).randPos = s.randPos ∧ (playSound t s).frameRequests = s.frameRequests := by
  unfold playSound
  split_ifs <;> simp

theorem gameOver_fixed (s : State) :
    fixedPart (gameOver s) = fixedPart s ∧ gameNumbers (gameOver s) = gameNumbers s ∧
    (gameOver s).obstacles = s.obstacles ∧ (gameOver s).coins = s.coins ∧
    (gameOver s).particles = s.particles ∧ (gameOver s).game.running = false ∧
    (gameOver s).game.paused = false ∧ (gameOver s).frameRequests = s.frameRequests := by
  simp only [gameOver, fixedPart, gameNumbers, playSound_fixed]
  split_ifs <;> simp [randomNext]

theorem obstacleCallback_fixed (o : Obstacle) (k : Nat) (s : State) :
    fixedPart (obstacleCallback o k s) = fixedPart s ∧
    gameNumbers (obstacleCallback o k s) = gameNumbers s ∧
    (obstacleCallback o k s).coins = s.coins ∧
    (obstacleCallback o k s).particles = s.particles ∧
    (obstacleCallback o k s).frameRequests = s.frameRequests := by
  simp only [obstacleCallback]
  split_ifs <;> simp [gameOver_fixed] <;> simp [fixedPart, gameNumbers]

/-- The coin callback only ever writes the coin pool: its collision test is
always false, so `collectCoin` is never reached. -/
theorem coinCallback_eq (c : Coin) (k : Nat) (s : State) :
    coinCallback c k s =
      { s with coins :=
          if c.y + s.game.speed > s.canvas.height then
            (s.coins.set k { c with y := c.y + s.game.speed,
                                    rotation := c.rotation + 1 / 10 }).eraseIdx k
          else s.coins.set k { c with y := c.y + s.game.speed,
                                      rotation := c.rotation + 1 / 10 } } := by
  simp only [coinCallback, checkCollision_coin, Bool.false_eq_true, if_false]
  split_ifs <;> rfl

theorem particleCallback_eq (p : Particle) (k : Nat) (s : State) :
    ∃ ps, particleCallback p k s = { s with particles := ps } := by
  simp only [particleCallback]
  split_ifs
  · exact ⟨_, rfl⟩
  · exact ⟨_, rfl⟩

theorem updateObstacles_fixed (s : State) :
    fixedPart (updateObstacles s) = fixedPart s ∧
    gameNumbers (updateObstacles s) = gameNumbers s ∧
    (updateObstacles s).coins = s.coins ∧
    (updateObstacles s).particles = s.particles ∧
    (updateObstacles s).frameRequests = s.frameRequests := by
  have h := forEachFrom_proj (fun s => s.obstacles) obstacleCallback
    (fun s => (fixedPart s, gameNumbers s, s.coins, s.particles, s.frameRequests))
    (fun a k s => by simp [obstacleCallback_fixed]) s.obstacles.length 0 s
  simpa [updateObstacles, forEach] using h

theorem updateCoins_eq (s : State) : ∃ cs, updateCoins s = { s with coins := cs } := by
  have h := forEachFrom_inv (fun s => s.coins) coinCallback
    (fun t => ∃ cs, t = { s with coins := cs })
    (fun a k t ht => by
      obtain ⟨cs, rfl⟩ := ht
      rw [coinCallback_eq]
      exact ⟨_, rfl⟩) s.coins.length 0 s ⟨s.coins, rfl⟩
  exact h

theorem updateParticles_eq (s : State) :
    ∃ ps, updateParticles s = { s with particles := ps } := by
  have h := forEachFrom_inv (fun s => s.particles) particleCallback
    (fun t => ∃ ps, t = { s with particles := ps })
    (fun a k t ht => by
      obtain ⟨ps, rfl⟩ := ht
      obtain ⟨qs, hq⟩ := particleCallback_eq a k { s with particles := ps }
      exact ⟨qs, hq⟩) s.particles.length 0 s ⟨s.particles, rfl⟩
  exact h

theorem updateSpawn_fixed (s : State) :
    (updateSpawn s).game = s.game ∧ fixedPart (updateSpawn s) = fixedPart s ∧
    (updateSpawn s).particles = s.particles ∧
    (updateSpawn s).frameRequests = s.frameRequests := by
  simp only [updateSpawn]
  split_ifs <;> simp [spawnObstacle, spawnCoin, randomNext, fixedPart]

theorem updateCoins_fixed (s : State) :
    (updateCoins s).game = s.game ∧ fixedPart (updateCoins s) = fixedPart s ∧
    gameNumbers (updateCoins s) = gameNumbers s ∧
    (updateCoins s).obstacles = s.obstacles ∧ (updateCoins s).particles = s.particles ∧
    (updateCoins s).frameRequests = s.frameRequests := by
  obtain ⟨cs, h⟩ := updateCoins_eq s
  rw [h]
  simp [fixedPart, gameNumbers]

theorem updateParticles_fixed (s : State) :
    (updateParticles s).game = s.game ∧ fixedPart (updateParticles s) = fixedPart s ∧
    gameNumbers (updateParticles s) = gameNumbers s ∧
    (updateParticles s).obstacles = s.obstacles ∧ (updateParticles s).coins = s.coins ∧
    (updateParticles s).frameRequests = s.frameRequests := by
  obtain ⟨ps, h⟩ := updateParticles_eq s
  rw [h]
  simp [fixedPart, gameNumbers]

/-- The spawn trials and the three pool passes together leave the clock's and
the player step's results alone. -/
theorem pools_fixed (s : State) :
    fixedPart (updateParticles (updateCoins (updateObstacles (updateSpawn s)))) = fixedPart s ∧
    gameNumbers (updateParticles (updateCoins (updateObstacles (updateSpawn s)))) =
      gameNumbers s ∧
    (updateParticles (updateCoins (updateObstacles (updateSpawn s)))).frameRequests =
      s.frameRequests := by
  have h4 := updateSpawn_fixed s
  have h5 := updateObstacles_fixed (updateSpawn s)
  have h6 := updateCoins_fixed (updateObstacles (updateSpawn s))
  have h7 := updateParticles_fixed (updateCoins (updateObstacles (updateSpawn s)))
  refine ⟨?_, ?_, ?_⟩
  · rw [h7.2.1, h6.2.1, h5.1, h4.2.1]
  · rw [h7.2.2.1, h6.2.2.1, h5.2.1]
    simp [gameNumbers, h4.1]
  · rw [h7.2.2.2.2.2, h6.2.2.2.2.2, h5.2.2.2.2, h4.2.2.2]

/-- The clock, road, player, spawn and pool steps put together: what a tick
does to the speed, the score and the player, and what it leaves alone. -/
theorem update_core (dt : ℚ) (s : State) :
    (update dt s).game.speed = min (s.game.speed + s.game.speedIncrement) s.game.maxSpeed ∧
    (update dt s).game.score =
      s.game.score + ⌊min (s.game.speed + s.game.speedIncrement) s.game.maxSpeed / 10⌋ ∧
    (update dt s).game.baseSpeed = s.game.baseSpeed ∧
    (update dt s).game.maxSpeed = s.game.maxSpeed ∧
    (update dt s).game.speedIncrement = s.game.speedIncrement ∧
    (update dt s).canvas = s.canvas ∧
    (update dt s).player = (updatePlayer s).player ∧
    (update dt s).keys = s.keys ∧
    (update dt s).lastTime = s.lastTime ∧
    (update dt s).frameRequests = s.frameRequests := by
  have h := pools_fixed (updatePlayer (updateRoad (updateClock s)))
  simp only [fixedPart, gameNumbers, Prod.mk.injEq] at h
  obtain ⟨⟨h1, h2, _, h4, h5, _⟩, ⟨g1, g2, g3, g4, g5⟩, hf⟩ := h
  simp only [update]
  rw [h1, h2, h4, h5, g1, g2, g3, g4, g5, hf]
  simp [updatePlayer, updateRoad, updateClock]

/-! ## Collision test: claim C9 -/

/-- C9: `checkCollision` is symmetric in its two rectangles (for all operand
values, `NaN` included), and on rectangles whose `x`, `y`, `width`, `height` are
numbers it holds exactly when `a.x < b.x + b.width`, `a.x + a.width > b.x`,
`a.y < b.y + b.height` and `a.y + a.height > b.y` all hold. -/
theorem C9_checkCollision_symmetric :
    (∀ a b : Rect, checkCollision a b = checkCollision b a) ∧
    (∀ x1 y1 w1 h1 x2 y2 w2 h2 : ℚ,
      (checkCollision (Rect.ofNums x1 y1 w1 h1) (Rect.ofNums x2 y2 w2 h2) = true ↔
        (x1 < x2 + w2 ∧ x1 + w1 > x2 ∧ y1 < y2 + h2 ∧ y1 + h1 > y2)) ∧
      checkCollision (Rect.ofNums x1 y1 w1 h1) (Rect.ofNums x2 y2 w2 h2) =
        checkCollision (Rect.ofNums x2 y2 w2 h2) (Rect.ofNums x1 y1 w1 h1)) :=
  ⟨checkCollision_comm, fun x1 y1 w1 h1 x2 y2 w2 h2 =>
    ⟨checkCollision_ofNums x1 y1 w1 h1 x2 y2 w2 h2, checkCollision_comm _ _⟩⟩

/-! ## Best score on game over: claim C7 -/

/-- C7: after `gameOver` the best score is the larger of the old best score and
the score, it is written to storage exactly when the score exceeded the old best
score (one `setItem` of the score, none otherwise), and it never decreases; with
score 500 and best 300 it becomes 500 and is stored, with score 200 and best 300
it stays 300 and nothing is stored. -/
theorem C7_gameOver_bestScore (s : State) :
    (gameOver s).game.bestScore = max s.game.bestScore s.game.score ∧
    (gameOver s).storage =
      (if s.game.score > s.game.bestScore then s.game.score :: s.storage else s.storage) ∧
    s.game.bestScore ≤ (gameOver s).game.bestScore ∧
    (s.game.score = 500 → s.game.bestScore = 300 →
      (gameOver s).game.bestScore = 500 ∧ (gameOver s).storage = 500 :: s.storage) ∧
    (s.game.score = 200 → s.game.bestScore = 300 →
      (gameOver s).game.bestScore = 300 ∧ (gameOver s).storage = s.storage) := by
  have hb : (gameOver s).game.bestScore = max s.game.bestScore s.game.score := by
    simp only [gameOver, playSound_fixed]
    split_ifs with h
    · simp at h ⊢
      exact le_of_lt h
    · simp [randomNext] at h ⊢
      exact h
  have hs : (gameOver s).storage =
      (if s.game.score > s.game.bestScore then s.game.score :: s.storage else s.storage) := by
    simp only [gameOver, playSound_fixed]
    split_ifs with h <;> simp [randomNext]
  refine ⟨hb, hs, ?_, ?_, ?_⟩
  · rw [hb]
    exact le_max_left _ _
  · intro h1 h2
    rw [hb, hs, h1, h2]
    simp
  · intro h1 h2
    rw [hb, hs, h1, h2]
    simp

/-- C7 at two concrete states: score 500 over best 300, and score 200 under best 300. -/
theorem C7_gameOver_bestScore_witness :
    ((gameOver (scoredState 500 300)).game.bestScore = 500 ∧
      (gameOver (scoredState 500 300)).storage = 500 :: (scoredState 500 300).storage) ∧
    ((gameOver (scoredState 200 300)).game.bestScore = 300 ∧
      (gameOver (scoredState 200 300)).storage = (scoredState 200 300).storage) :=
  ⟨(C7_gameOver_bestScore (scoredState 500 300)).2.2.2.1 rfl rfl,
   (C7_gameOver_bestScore (scoredState 200 300)).2.2.2.2 rfl rfl⟩

/-! ## Coin pickup effect: claim C10 -/

theorem pushParticle_iterate (coin : Coin) (n : Nat) (s : State) :
    (Nat.iterate (pushParticle coin) n s).game = s.game ∧
    ∃ burst : List Particle, burst.length = n ∧
      (Nat.iterate (pushParticle coin) n s).particles = s.particles ++ burst ∧
      ∀ p ∈ burst, p.life = 30 ∧ p.alpha = 1 ∧
        p.x = coin.x + coin.size / 2 ∧ p.y = coin.y + coin.size / 2 := by
  induction n generalizing s with
  | zero => exact ⟨rfl, [], rfl, by simp, by simp⟩
  | succ n ih =>
    obtain ⟨hg, burst, hl, hp, hall⟩ := ih (pushParticle coin s)
    rw [Function.iterate_succ_apply]
    refine ⟨hg.trans (by simp [pushParticle, randomNext]), ?_⟩
    have hps : ∃ q : Particle, (pushParticle coin s).particles = s.particles ++ [q] ∧
        q.life = 30 ∧ q.alpha = 1 ∧ q.x = coin.x + coin.size / 2 ∧
        q.y = coin.y + coin.size / 2 := by
      simp only [pushParticle, randomNext]
      exact ⟨_, rfl, rfl, rfl, rfl, rfl⟩
    obtain ⟨q, hq, hq1⟩ := hps
    refine ⟨q :: burst, by simp [hl], ?_, ?_⟩
    · rw [hp, hq]
      simp
    · intro p hmem
      rcases List.mem_cons.mp hmem with h | h
      · rw [h]
        exact hq1
      · exact hall p h

/-- C10: for every coin and every prior state, `collectCoin` increases the score
by exactly 100 and appends exactly 10 particles to the particle pool, each with
`life = 30`, `alpha = 1` and position `(coin.x + size/2, coin.y + size/2)`; the
particles already in the pool stay as they were, in front of the new ones. -/
theorem C10_collectCoin_effect (coin : Coin) (s : State) :
    (collectCoin coin s).game.score = s.game.score + 100 ∧
    ∃ burst : List Particle, burst.length = 10 ∧
      (collectCoin coin s).particles = s.particles ++ burst ∧
      ∀ p ∈ burst, p.life = 30 ∧ p.alpha = 1 ∧
        p.x = coin.x + coin.size / 2 ∧ p.y = coin.y + coin.size / 2 := by
  obtain ⟨hg, burst, hl, hp, hall⟩ := pushParticle_iterate coin 10
    { s with game := { s.game with score := s.game.score + 100 } }
  simp only [collectCoin, playSound_fixed]
  exact ⟨by rw [hg], burst, hl, hp, hall⟩

/-! ## Pause: claim C8 -/

theorem gameLoop_paused (t : ℚ) (s : State) (hp : s.game.paused = true) :
    (gameLoop t s).game = s.game ∧ (gameLoop t s).player = s.player ∧
    (gameLoop t s).road = s.road ∧ (gameLoop t s).obstacles = s.obstacles ∧
    (gameLoop t s).coins = s.coins ∧ (gameLoop t s).particles = s.particles := by
  cases hr : s.game.running <;> simp [gameLoop, hp, hr]

theorem gameLoop_running (t : ℚ) (s : State) (hr : s.game.running = true)
    (hp : s.game.paused = false) :
    gameLoop t s =
      { update (t - s.lastTime) { s with lastTime := t } with
        frameRequests := (update (t - s.lastTime) { s with lastTime := t }).frameRequests + 1 } := by
  simp [gameLoop, hr, hp]

/-- C8: from any state with `paused = true`, any number of consecutive
`gameLoop` frames leaves the `game` object (score, speed, flags), the player,
the road and the obstacle, coin and particle pools exactly as they were, because
the frame does not call `update`; and once `togglePause` has cleared `paused` in
a running session, the next frame is an `update` tick again. -/
theorem C8_pause_freezes (s : State) (hp : s.game.paused = true) :
    (∀ timestamps : List ℚ,
      (runFrames timestamps s).game = s.game ∧ (runFrames timestamps s).player = s.player ∧
      (runFrames timestamps s).road = s.road ∧
      (runFrames timestamps s).obstacles = s.obstacles ∧
      (runFrames timestamps s).coins = s.coins ∧
      (runFrames timestamps s).particles = s.particles) ∧
    (s.game.running = true →
      (togglePause s).game.paused = false ∧
      ∀ t : ℚ, gameLoop t (togglePause s) =
        { update (t - s.lastTime) { togglePause s with lastTime := t } with
          frameRequests :=
            (update (t - s.lastTime) { togglePause s with lastTime := t }).frameRequests + 1 }) := by
  constructor
  · intro timestamps
    induction timestamps generalizing s with
    | nil => simp [runFrames]
    | cons t ts ih =>
      have h1 := gameLoop_paused t s hp
      have h2 := ih (gameLoop t s) (by rw [h1.1]; exact hp)
      simp only [runFrames, List.foldl_cons] at h2 ⊢
      obtain ⟨a1, a2, a3, a4, a5, a6⟩ := h1
      obtain ⟨b1, b2, b3, b4, b5, b6⟩ := h2
      exact ⟨b1.trans a1, b2.trans a2, b3.trans a3, b4.trans a4, b5.trans a5, b6.trans a6⟩
  · intro hr
    have hq : (togglePause s).game.paused = false := by
      simp [togglePause, hr, hp]
    have hrun : (togglePause s).game.running = true := by
      simp [togglePause, hr, hp]
    have hl : (togglePause s).lastTime = s.lastTime := by
      simp [togglePause, hr, hp]
    refine ⟨hq, fun t => ?_⟩
    rw [gameLoop_running t (togglePause s) hrun hq, hl]

/-- C8 at a concrete paused session: three frames change nothing, and the frame
after `togglePause` is an `update` tick. -/
theorem C8_pause_freezes_witness :
    pausedState.game.paused = true ∧ pausedState.game.running = true ∧
    (runFrames [16, 33, 50] pausedState).game = pausedState.game ∧
    (runFrames [16, 33, 50] pausedState).obstacles = pausedState.obstacles ∧
    (togglePause pausedState).game.paused = false ∧
    gameLoop 66 (togglePause pausedState) =
      { update (66 - pausedState.lastTime) { togglePause pausedState with lastTime := 66 } with
        frameRequests :=
          (update (66 - pausedState.lastTime)
            { togglePause pausedState with lastTime := 66 }).frameRequests + 1 } :=
  ⟨rfl, rfl, ((C8_pause_freezes pausedState rfl).1 [16, 33, 50]).1,
   ((C8_pause_freezes pausedState rfl).1 [16, 33, 50]).2.2.2.1,
   ((C8_pause_freezes pausedState rfl).2 rfl).1,
   ((C8_pause_freezes pausedState rfl).2 rfl).2 66⟩

/-! ## Player bounds: claim C5 -/

/-- C5: whatever `player.x` and the key flags were before it, if the canvas is
at least as wide as the player then after an `update` tick
`0 ≤ player.x ≤ canvas.width - player.width`; and `init()` (with the five lanes
of the `road` literal) puts the player at `canvas.width/2 - player.width/2`,
which lies in the same interval. -/
theorem C5_player_bounds (dt : ℚ) (s : State) (hw : s.player.width ≤ s.canvas.width) :
    (0 ≤ (update dt s).player.x ∧
      (update dt s).player.x ≤ (update dt s).canvas.width - (update dt s).player.width) ∧
    (s.road.lanes = 5 →
      (init s).player.x = s.canvas.width / 2 - s.player.width / 2 ∧
      0 ≤ (init s).player.x ∧
      (init s).player.x ≤ (init s).canvas.width - (init s).player.width) := by
  have hc := update_core dt s
  obtain ⟨-, -, -, -, -, hcv, hpl, -⟩ := hc
  constructor
  · rw [hpl, hcv]
    simp only [updatePlayer]
    exact ⟨le_max_left _ _, max_le (by linarith) (min_le_right _ _)⟩
  · intro hl
    have hf : (⌊(5 : ℚ) / 2⌋ : Int) = 2 := by
      rw [Int.floor_eq_iff]
      norm_num
    have hx : (init s).player.x = s.canvas.width / 2 - s.player.width / 2 := by
      simp only [init, hl, hf]
      push_cast
      ring
    refine ⟨hx, ?_, ?_⟩
    · rw [hx]
      linarith
    · rw [hx]
      simp only [init]
      linarith

/-- C5 at the loaded script: a 400 wide canvas, a 40 wide player, five lanes. -/
theorem C5_player_bounds_witness :
    (loadedState "medium" (1 / 2)).player.width ≤ (loadedState "medium" (1 / 2)).canvas.width ∧
    (0 ≤ (update 0 (loadedState "medium" (1 / 2))).player.x ∧
      (update 0 (loadedState "medium" (1 / 2))).player.x ≤
        (update 0 (loadedState "medium" (1 / 2))).canvas.width -
          (update 0 (loadedState "medium" (1 / 2))).player.width) ∧
    (init (loadedState "medium" (1 / 2))).player.x =
      (loadedState "medium" (1 / 2)).canvas.width / 2 -
        (loadedState "medium" (1 / 2)).player.width / 2 :=
  ⟨by norm_num [loadedState, initialState],
   (C5_player_bounds 0 (loadedState "medium" (1 / 2))
      (by norm_num [loadedState, initialState])).1,
   ((C5_player_bounds 0 (loadedState "medium" (1 / 2))
      (by norm_num [loadedState, initialState])).2 rfl).1⟩

/-! ## Score accrual: claim C6 -/

/-- C6: in every `update` tick the score grows by exactly `floor(speed / 10)`,
where `speed` is the value `game.speed` has in that tick, that is
`min(old speed + speedIncrement, maxSpeed)`; no tick adds anything else, since
the coin pass never reaches `collectCoin`. A tick at speed 15 adds 1, a tick at
speed 95 adds 9 and a tick at speed 9.9 adds 0. -/
theorem C6_score_accrual (dt : ℚ) (s : State) :
    (update dt s).game.score = s.game.score + ⌊(update dt s).game.speed / 10⌋ ∧
    (update dt s).game.speed = min (s.game.speed + s.game.speedIncrement) s.game.maxSpeed ∧
    ((update dt s).game.speed = 15 → (update dt s).game.score = s.game.score + 1) ∧
    ((update dt s).game.speed = 95 → (update dt s).game.score = s.game.score + 9) ∧
    ((update dt s).game.speed = 99 / 10 → (update dt s).game.score = s.game.score + 0) := by
  obtain ⟨hsp, hsc, -⟩ := update_core dt s
  have h : (update dt s).game.score = s.game.score + ⌊(update dt s).game.speed / 10⌋ := by
    rw [hsc, hsp]
  refine ⟨h, hsp, ?_, ?_, ?_⟩
  · intro h15
    have hf : ⌊(15 : ℚ) / 10⌋ = 1 := by
      rw [Int.floor_eq_iff]
      norm_num
    rw [h, h15, hf]
  · intro h95
    have hf : ⌊(95 : ℚ) / 10⌋ = 9 := by
      rw [Int.floor_eq_iff]
      norm_num
    rw [h, h95, hf]
  · intro h99
    have hf : ⌊(99 / 10 : ℚ) / 10⌋ = 0 := by
      rw [Int.floor_eq_iff]
      norm_num
    rw [h, h99, hf]

theorem cappedState_speed (v : ℚ) : (update 0 (cappedState v)).game.speed = v := by
  rw [(update_core 0 (cappedState v)).1]
  simp [cappedState, loadedState, initialState]

/-- C6 at three concrete sessions whose speed in the tick is 15, 95 and 9.9. -/
theorem C6_score_accrual_witness :
    (update 0 (cappedState 15)).game.score = (cappedState 15).game.score + 1 ∧
    (update 0 (cappedState 95)).game.score = (cappedState 95).game.score + 9 ∧
    (update 0 (cappedState (99 / 10))).game.score = (cappedState (99 / 10)).game.score + 0 :=
  ⟨(C6_score_accrual 0 (cappedState 15)).2.2.1 (cappedState_speed 15),
   (C6_score_accrual 0 (cappedState 95)).2.2.2.1 (cappedState_speed 95),
   (C6_score_accrual 0 (cappedState (99 / 10))).2.2.2.2 (cappedState_speed (99 / 10))⟩

/-! ## Starting a session: claims C3 and C4 -/

/-- The `switch` of `startGame` on the three values of the select. -/
theorem setDifficulty_table (g : Game) (v : String)
    (hv : v = "easy" ∨ v = "medium" ∨ v = "hard") :
    ((setDifficulty g v).baseSpeed, (setDifficulty g v).maxSpeed) =
      (if v = "easy" then ((2 : ℚ), (10 : ℚ)) else if v = "medium" then (3, 15) else (4, 20)) ∧
    (setDifficulty g v).speedIncrement = g.speedIncrement ∧
    (setDifficulty g v).bestScore = g.bestScore ∧
    (setDifficulty g v).soundEnabled = g.soundEnabled ∧
    (setDifficulty g v).baseSpeed ≤ (setDifficulty g v).maxSpeed := by
  rcases hv with h | h | h <;> subst h <;> simp [setDifficulty] <;> norm_num

/-- The state `startGame` hands to its first frame. -/
theorem startGameReset_fields (s : State) :
    (startGameReset s).game.baseSpeed = (setDifficulty s.game s.dom.difficulty).baseSpeed ∧
    (startGameReset s).game.maxSpeed = (setDifficulty s.game s.dom.difficulty).maxSpeed ∧
    (startGameReset s).game.speedIncrement =
      (setDifficulty s.game s.dom.difficulty).speedIncrement ∧
    (startGameReset s).game.speed = (startGameReset s).game.baseSpeed ∧
    (startGameReset s).game.score = 0 ∧
    (startGameReset s).game.running = true ∧
    (startGameReset s).game.paused = false ∧
    (startGameReset s).obstacles = [] ∧
    (startGameReset s).coins = [] ∧
    (startGameReset s).particles = [] := by
  simp [startGameReset, init]

/-- The state `startGame` returns is the reset state after one `update` tick. -/
theorem startGame_eq (s : State) :
    startGame s =
      { update (0 - (startGameReset s).lastTime) { startGameReset s with lastTime := 0 } with
        frameRequests :=
          (update (0 - (startGameReset s).lastTime)
            { startGameReset s with lastTime := 0 }).frameRequests + 1 } := by
  have h := startGameReset_fields s
  exact gameLoop_running 0 (startGameReset s) h.2.2.2.2.2.1 h.2.2.2.2.2.2.1

/-- The speed bounds are kept by any run of ticks. -/
theorem runTicks_speed (deltaTimes : List ℚ) (t : State)
    (hb : t.game.baseSpeed ≤ t.game.speed) (hm : t.game.speed ≤ t.game.maxSpeed)
    (hi : 0 ≤ t.game.speedIncrement) :
    (runTicks deltaTimes t).game.baseSpeed = t.game.baseSpeed ∧
    (runTicks deltaTimes t).game.maxSpeed = t.game.maxSpeed ∧
    (runTicks deltaTimes t).game.speedIncrement = t.game.speedIncrement ∧
    (runTicks deltaTimes t).game.baseSpeed ≤ (runTicks deltaTimes t).game.speed ∧
    (runTicks deltaTimes t).game.speed ≤ (runTicks deltaTimes t).game.maxSpeed := by
  induction deltaTimes generalizing t with
  | nil => exact ⟨rfl, rfl, rfl, hb, hm⟩
  | cons dt dts ih =>
    obtain ⟨hsp, -, hbs, hms, hin, -⟩ := update_core dt t
    have h := ih (update dt t)
      (by rw [hbs, hsp]; exact le_min (by linarith) (le_trans hb hm))
      (by rw [hms, hsp]; exact min_le_right _ _)
      (by rw [hin]; exact hi)
    simp only [runTicks, List.foldl_cons] at h ⊢
    rw [hbs, hms, hin] at h
    exact h

/-- The clock fields `startGame` returns with, in terms of the reset state. -/
theorem startGame_clock (s : State) :
    (startGame s).game.speed =
      min ((startGameReset s).game.baseSpeed + (startGameReset s).game.speedIncrement)
        (startGameReset s).game.maxSpeed ∧
    (startGame s).game.baseSpeed = (startGameReset s).game.baseSpeed ∧
    (startGame s).game.maxSpeed = (startGameReset s).game.maxSpeed ∧
    (startGame s).game.speedIncrement = (startGameReset s).game.speedIncrement ∧
    (startGame s).game.score =
      ⌊min ((startGameReset s).game.baseSpeed + (startGameReset s).game.speedIncrement)
        (startGameReset s).game.maxSpeed / 10⌋ := by
  obtain ⟨-, -, -, rs, rz, -⟩ := startGameReset_fields s
  obtain ⟨usp, usc, ubs, ums, uin, -⟩ :=
    update_core (0 - (startGameReset s).lastTime) { startGameReset s with lastTime := 0 }
  rw [startGame_eq]
  refine ⟨?_, ubs, ums, uin, ?_⟩
  · refine usp.trans ?_
    show min ((startGameReset s).game.speed + (startGameReset s).game.speedIncrement)
      (startGameReset s).game.maxSpeed = _
    rw [rs]
  · refine usc.trans ?_
    show (startGameReset s).game.score +
      ⌊min ((startGameReset s).game.speed + (startGameReset s).game.speedIncrement)
        (startGameReset s).game.maxSpeed / 10⌋ = _
    rw [rs, rz, zero_add]

/-- C3 (amended): with difficulty easy, medium or hard, the speed `startGame`
assigns, which is the speed its first frame starts from, equals `baseSpeed`;
`startGame` runs that first frame itself, so the speed it returns with is
`min(baseSpeed + speedIncrement, maxSpeed)`; and in every state reached from
either of the two by any number of `update` ticks,
`baseSpeed ≤ speed ≤ maxSpeed`, the speed after a further tick is
`min(speed + speedIncrement, maxSpeed)`, and that is not less than the speed
before it. -/
theorem C3_speed_invariant (s : State)
    (hd : s.dom.difficulty = "easy" ∨ s.dom.difficulty = "medium" ∨ s.dom.difficulty = "hard")
    (hi : 0 ≤ s.game.speedIncrement) :
    (startGameReset s).game.speed = (startGameReset s).game.baseSpeed ∧
    (startGame s).game.baseSpeed = (startGameReset s).game.baseSpeed ∧
    (startGame s).game.speed =
      min ((startGameReset s).game.baseSpeed + s.game.speedIncrement)
        (startGameReset s).game.maxSpeed ∧
    ∀ t0 : State, (t0 = startGameReset s ∨ t0 = startGame s) → ∀ deltaTimes : List ℚ,
      (runTicks deltaTimes t0).game.baseSpeed = (startGameReset s).game.baseSpeed ∧
      (runTicks deltaTimes t0).game.maxSpeed = (startGameReset s).game.maxSpeed ∧
      (runTicks deltaTimes t0).game.baseSpeed ≤ (runTicks deltaTimes t0).game.speed ∧
      (runTicks deltaTimes t0).game.speed ≤ (runTicks deltaTimes t0).game.maxSpeed ∧
      ∀ dt : ℚ,
        (update dt (runTicks deltaTimes t0)).game.speed =
          min ((runTicks deltaTimes t0).game.speed + (runTicks deltaTimes t0).game.speedIncrement)
            (runTicks deltaTimes t0).game.maxSpeed ∧
        (runTicks deltaTimes t0).game.speed ≤ (update dt (runTicks deltaTimes t0)).game.speed := by
  obtain ⟨-, hinc, -, -, hle⟩ := setDifficulty_table s.game s.dom.difficulty hd
  obtain ⟨rb, rm, ri, rs, -⟩ := startGameReset_fields s
  have hle0 : (startGameReset s).game.baseSpeed ≤ (startGameReset s).game.maxSpeed := by
    rw [rb, rm]
    exact hle
  have hi0 : (startGameReset s).game.speedIncrement = s.game.speedIncrement := by
    rw [ri, hinc]
  obtain ⟨c1, sb, sm, c4, -⟩ := startGame_clock s
  have si : (startGame s).game.speedIncrement = s.game.speedIncrement := c4.trans hi0
  have ss : (startGame s).game.speed =
      min ((startGameReset s).game.baseSpeed + s.game.speedIncrement)
        (startGameReset s).game.maxSpeed := by
    rw [c1, hi0]
  refine ⟨rs, sb, ss, ?_⟩
  have key : ∀ t0 : State, t0.game.baseSpeed = (startGameReset s).game.baseSpeed →
      t0.game.maxSpeed = (startGameReset s).game.maxSpeed →
      t0.game.baseSpeed ≤ t0.game.speed → t0.game.speed ≤ t0.game.maxSpeed →
      0 ≤ t0.game.speedIncrement → ∀ deltaTimes : List ℚ,
      (runTicks deltaTimes t0).game.baseSpeed = (startGameReset s).game.baseSpeed ∧
      (runTicks deltaTimes t0).game.maxSpeed = (startGameReset s).game.maxSpeed ∧
      (runTicks deltaTimes t0).game.baseSpeed ≤ (runTicks deltaTimes t0).game.speed ∧
      (runTicks deltaTimes t0).game.speed ≤ (runTicks deltaTimes t0).game.maxSpeed ∧
      ∀ dt : ℚ,
        (update dt (runTicks deltaTimes t0)).game.speed =
          min ((runTicks deltaTimes t0).game.speed + (runTicks deltaTimes t0).game.speedIncrement)
            (runTicks deltaTimes t0).game.maxSpeed ∧
        (runTicks deltaTimes t0).game.speed ≤ (update dt (runTicks deltaTimes t0)).game.speed := by
    intro t0 h1 h2 h3 h4 h5 deltaTimes
    obtain ⟨a1, a2, a3, a4, a5⟩ := runTicks_speed deltaTimes t0 h3 h4 h5
    refine ⟨a1.trans h1, a2.trans h2, a4, a5, fun dt => ?_⟩
    have hu := (update_core dt (runTicks deltaTimes t0)).1
    refine ⟨hu, ?_⟩
    rw [hu]
    exact le_min (by rw [a3]; linarith) a5
  intro t0 ht0
  rcases ht0 with h | h
  · subst h
    exact key _ rfl rfl (le_of_eq rs.symm) (by rw [rs]; exact hle0) (by rw [hi0]; exact hi)
  · subst h
    refine key _ sb sm ?_ ?_ (by rw [si]; exact hi)
    · rw [sb, ss]
      exact le_min (by linarith) hle0
    · rw [sm, ss]
      exact min_le_right _ _

/-- C3 (amended) at the loaded script with `easy` chosen: three ticks after
`startGame` the speed is still between `baseSpeed` and `maxSpeed`. -/
theorem C3_speed_invariant_witness :
    (loadedState "easy" (1 / 2)).dom.difficulty = "easy" ∧
    0 ≤ (loadedState "easy" (1 / 2)).game.speedIncrement ∧
    (startGameReset (loadedState "easy" (1 / 2))).game.speed =
      (startGameReset (loadedState "easy" (1 / 2))).game.baseSpeed ∧
    (runTicks [16, 16, 16] (startGame (loadedState "easy" (1 / 2)))).game.baseSpeed ≤
      (runTicks [16, 16, 16] (startGame (loadedState "easy" (1 / 2)))).game.speed ∧
    (runTicks [16, 16, 16] (startGame (loadedState "easy" (1 / 2)))).game.speed ≤
      (runTicks [16, 16, 16] (startGame (loadedState "easy" (1 / 2)))).game.maxSpeed :=
  ⟨rfl, by norm_num [loadedState, initialState],
   (C3_speed_invariant (loadedState "easy" (1 / 2)) (Or.inl rfl)
      (by norm_num [loadedState, initialState])).1,
   ((C3_speed_invariant (loadedState "easy" (1 / 2)) (Or.inl rfl)
      (by norm_num [loadedState, initialState])).2.2.2 _ (Or.inr rfl) [16, 16, 16]).2.2.1,
   ((C3_speed_invariant (loadedState "easy" (1 / 2)) (Or.inl rfl)
      (by norm_num [loadedState, initialState])).2.2.2 _ (Or.inr rfl) [16, 16, 16]).2.2.2.1⟩

/-- C3, counterexample: with `easy` chosen, `startGame` returns with speed
2.001 while `baseSpeed` is 2, because it has already run the first tick. -/
theorem C3_counterexample :
    (startGame (loadedState "easy" (1 / 2))).game.baseSpeed = 2 ∧
    (startGame (loadedState "easy" (1 / 2))).game.speed = 2001 / 1000 ∧
    (startGame (loadedState "easy" (1 / 2))).game.speed ≠
      (startGame (loadedState "easy" (1 / 2))).game.baseSpeed := by
  obtain ⟨h1, h2, -⟩ := startGame_clock (loadedState "easy" (1 / 2))
  have hb : (startGame (loadedState "easy" (1 / 2))).game.baseSpeed = 2 := by
    rw [h2]
    simp [startGameReset, init, setDifficulty, loadedState, initialState, demoDom]
  have hs : (startGame (loadedState "easy" (1 / 2))).game.speed = 2001 / 1000 := by
    rw [h1]
    simp [startGameReset, init, setDifficulty, loadedState, initialState, demoDom]
    norm_num
  refine ⟨hb, hs, ?_⟩
  rw [hb, hs]
  norm_num

/-! ## The obstacle pass and the end of the session: claim C2 -/

/-- The tick from `skipState`, up to the pool passes. -/
theorem skipState_pre :
    updateSpawn (updatePlayer (updateRoad (updateClock skipState))) =
      { skipState with
        game := { skipState.game with speed := 3001 / 1000 }
        player := { skipState.player with x := 132 }
        road := { skipState.road with offset := 3001 / 1000 }
        randPos := 2 } := by
  simp [updateSpawn, updatePlayer, updateRoad, updateClock, randomValue, randomNext, skipState]
  norm_num

/-- The tick from `skipState`: the first obstacle is advanced past the bottom and
spliced out, the second one moves into index 0 and is never visited. -/
theorem skipState_update :
    update 0 skipState =
      { skipState with
        game := { skipState.game with speed := 3001 / 1000 }
        player := { skipState.player with x := 132 }
        road := { skipState.road with offset := 3001 / 1000 }
        randPos := 2
        obstacles := [{ x := 100, y := 470, width := 40, height := 70,
                        color := some "#3498db" }] } := by
  have h : updateObstacles (updateSpawn (updatePlayer (updateRoad (updateClock skipState)))) =
      { skipState with
        game := { skipState.game with speed := 3001 / 1000 }
        player := { skipState.player with x := 132 }
        road := { skipState.road with offset := 3001 / 1000 }
        randPos := 2
        obstacles := [{ x := 100, y := 470, width := 40, height := 70,
                        color := some "#3498db" }] } := by
    rw [skipState_pre]
    simp only [updateObstacles, forEach, skipState, List.length_cons, List.length_nil]
    simp only [forEachFrom]
    simp [obstacleCallback, checkCollision, Player.rect, Obstacle.rect,
      JSNum.lt, JSNum.gt, JSNum.add]
    norm_num
  simp only [update, h]
  simp only [updateCoins, updateParticles, forEach, skipState, List.length_nil, forEachFrom]

/-- C2, the code at the failing input: the tick starts while running; at its end
the player's rectangle (132, 480, 40, 70) overlaps the rectangle of the obstacle
(100, 470, 40, 70) that is in the pool, and the session is still running. The
collision test itself is right on the two examples of the claim. -/
theorem C2_missed_collision :
    skipState.game.running = true ∧
    (update 0 skipState).player.rect = Rect.ofNums 132 480 40 70 ∧
    (update 0 skipState).obstacles =
      [{ x := 100, y := 470, width := 40, height := 70, color := some "#3498db" }] ∧
    checkCollision (Rect.ofNums 132 480 40 70) (Rect.ofNums 100 470 40 70) = true ∧
    (update 0 skipState).game.running = true ∧
    checkCollision (Rect.ofNums 100 500 40 70) (Rect.ofNums 110 510 40 70) = true ∧
    checkCollision (Rect.ofNums 100 500 40 70) (Rect.ofNums 200 510 40 70) = false := by
  rw [skipState_update]
  refine ⟨rfl, ?_, rfl, ?_, rfl, ?_, ?_⟩
  · simp [Player.rect, Rect.ofNums, skipState]
  · rw [checkCollision_ofNums]
    norm_num
  · rw [checkCollision_ofNums]
    norm_num
  · rw [Bool.eq_false_iff, Ne, checkCollision_ofNums]
    norm_num

/-! ## Coin pickup inside `update`: claim C1 -/

/-- The tick from `coinState`: the coin is advanced and stays in the pool. -/
theorem coinState_update :
    update 0 coinState =
      { coinState with
        game := { coinState.game with speed := 3001 / 1000 }
        road := { coinState.road with offset := 3001 / 1000 }
        randPos := 2
        coins := [{ x := 190, y := 473001 / 1000, size := 20, rotation := 1 / 10 }] } := by
  have h : updateObstacles (updateSpawn (updatePlayer (updateRoad (updateClock coinState)))) =
      { coinState with
        game := { coinState.game with speed := 3001 / 1000 }
        road := { coinState.road with offset := 3001 / 1000 }
        randPos := 2 } := by
    have h0 : updateSpawn (updatePlayer (updateRoad (updateClock coinState))) =
        { coinState with
          game := { coinState.game with speed := 3001 / 1000 }
          road := { coinState.road with offset := 3001 / 1000 }
          randPos := 2 } := by
      simp [updateSpawn, updatePlayer, updateRoad, updateClock, randomValue, randomNext,
        coinState]
      norm_num
    rw [h0]
    rfl
  simp only [update, h]
  simp only [updateCoins, updateParticles, forEach, coinState, List.length_cons,
    List.length_nil]
  simp only [forEachFrom]
  simp only [coinCallback_eq, List.getElem?_cons_zero]
  norm_num
  rfl

/-- C1, the code at the failing input: the coin of `coinState`, advanced by the
speed of the tick, is the 20 by 20 square at (190, 473.001), which overlaps the
player's rectangle (180, 480, 40, 70); yet after `update` that coin is still in
the pool, the score has not moved and no particle exists, because
`checkCollision(player, coin)` reads `coin.width` and `coin.height`, which a coin
does not have. -/
theorem C1_coin_not_collected :
    (update 0 coinState).coins =
      [{ x := 190, y := 473001 / 1000, size := 20, rotation := 1 / 10 }] ∧
    checkCollision (update 0 coinState).player.rect
      (Coin.square { x := 190, y := 473001 / 1000, size := 20, rotation := 1 / 10 }) = true ∧
    checkCollision (update 0 coinState).player.rect
      (Coin.rect { x := 190, y := 473001 / 1000, size := 20, rotation := 1 / 10 }) = false ∧
    (update 0 coinState).game.score = coinState.game.score ∧
    (update 0 coinState).particles = [] := by
  rw [coinState_update]
  refine ⟨rfl, ?_, checkCollision_coin _ _, rfl, rfl⟩
  have hp : coinState.player.rect = Rect.ofNums 180 480 40 70 := by
    simp [Player.rect, Rect.ofNums, coinState]
  show checkCollision coinState.player.rect _ = true
  rw [hp, Coin.square, checkCollision_ofNums]
  norm_num

/-! ## What the first tick can add to the pools: claim C4 -/

theorem obstacleCallback_small (o : Obstacle) (k : Nat) (s : State) (n : Nat)
    (h : s.game.paused = false ∧ s.obstacles.length ≤ n) :
    (obstacleCallback o k s).game.paused = false ∧
    (obstacleCallback o k s).obstacles.length ≤ n := by
  obtain ⟨hp, hl⟩ := h
  have he : ((s.obstacles.set k { o with y := o.y + s.game.speed }).eraseIdx k).length ≤ n := by
    refine le_trans (List.length_eraseIdx_le _ _) ?_
    simpa using hl
  simp only [obstacleCallback]
  split_ifs <;> simp [gameOver_fixed, hp, hl] <;> exact he

theorem update_small (dt : ℚ) (s : State) (hp : s.game.paused = false) :
    (update dt s).game.paused = false ∧
    (update dt s).obstacles.length ≤ s.obstacles.length + 1 ∧
    (update dt s).coins.length ≤ s.coins.length + 1 ∧
    (s.particles = [] → (update dt s).particles = []) := by
  have h4 : (updateSpawn (updatePlayer (updateRoad (updateClock s)))).game.paused = false ∧
      (updateSpawn (updatePlayer (updateRoad (updateClock s)))).obstacles.length ≤
        s.obstacles.length + 1 ∧
      (updateSpawn (updatePlayer (updateRoad (updateClock s)))).coins.length ≤
        s.coins.length + 1 ∧
      (updateSpawn (updatePlayer (updateRoad (updateClock s)))).particles = s.particles := by
    simp only [updateSpawn]
    split_ifs <;>
      simp [spawnObstacle, spawnCoin, randomNext, updatePlayer, updateRoad, updateClock, hp]
  obtain ⟨a1, a2, a3, a4⟩ := h4
  have h5 := forEachFrom_inv (fun s => s.obstacles) obstacleCallback
    (fun t => t.game.paused = false ∧ t.obstacles.length ≤ s.obstacles.length + 1)
    (fun a k t ht => obstacleCallback_small a k t _ ht)
    (updateSpawn (updatePlayer (updateRoad (updateClock s)))).obstacles.length 0 _ ⟨a1, a2⟩
  have h5f := updateObstacles_fixed (updateSpawn (updatePlayer (updateRoad (updateClock s))))
  have h6 := forEachFrom_inv (fun s => s.coins) coinCallback
    (fun t => t.coins.length ≤ s.coins.length + 1)
    (fun a k t ht => by
      rw [coinCallback_eq]
      dsimp only
      split_ifs
      · refine le_trans (List.length_eraseIdx_le _ _) ?_
        simpa using ht
      · simpa using ht)
    (updateObstacles (updateSpawn (updatePlayer (updateRoad (updateClock s))))).coins.length 0
    (updateObstacles (updateSpawn (updatePlayer (updateRoad (updateClock s)))))
    (by show (updateObstacles _).coins.length ≤ _; rw [h5f.2.2.1]; exact a3)
  have h6f := updateCoins_fixed
    (updateObstacles (updateSpawn (updatePlayer (updateRoad (updateClock s)))))
  have h7f := updateParticles_fixed (updateCoins
    (updateObstacles (updateSpawn (updatePlayer (updateRoad (updateClock s))))))
  refine ⟨?_, ?_, ?_, ?_⟩
  · simp only [update]
    rw [h7f.1, h6f.1]
    exact h5.1
  · simp only [update]
    rw [h7f.2.2.2.1, h6f.2.2.2.1]
    exact h5.2
  · simp only [update]
    rw [h7f.2.2.2.2.1]
    exact h6
  · intro hnil
    have hz : (updateCoins (updateObstacles (updateSpawn (updatePlayer (updateRoad
        (updateClock s)))))).particles = [] := by
      rw [h6f.2.2.2.2.1, h5f.2.2.2.1, a4, hnil]
    simp only [update, updateParticles, forEach, hz, List.length_nil, forEachFrom]

theorem updateSpawn_obstacles (s : State) :
    (updateSpawn s).obstacles = s.obstacles ∨
    ∃ o : Obstacle, o.y = -s.player.height ∧ o.height = s.player.height ∧
      o.width = s.player.width ∧ (updateSpawn s).obstacles = s.obstacles ++ [o] := by
  simp only [updateSpawn]
  split_ifs
  · exact Or.inr ⟨_, rfl, rfl, rfl, rfl⟩
  · exact Or.inr ⟨_, rfl, rfl, rfl, rfl⟩
  · exact Or.inl rfl
  · exact Or.inl rfl

theorem updateObstacles_nil (t : State) (h : t.obstacles = []) : updateObstacles t = t := by
  simp only [updateObstacles, forEach, h, List.length_nil, forEachFrom]

theorem updateObstacles_single (t : State) (o : Obstacle) (h : t.obstacles = [o]) :
    updateObstacles t = obstacleCallback o 0 t := by
  simp only [updateObstacles, forEach, h, List.length_singleton]
  simp only [forEachFrom, h, List.getElem?_cons_zero]

/-- An obstacle that, once advanced, ends above the player's top edge does not
end the session. -/
theorem obstacleCallback_clear (o : Obstacle) (k : Nat) (t : State)
    (h : o.y + t.game.speed + o.height ≤ t.player.y) :
    (obstacleCallback o k t).game = t.game := by
  have hc : ∀ u : State, u.player = t.player →
      checkCollision u.player.rect
        (Obstacle.rect { o with y := o.y + t.game.speed }) = false := by
    intro u hu
    rw [hu]
    simp [checkCollision, Player.rect, Obstacle.rect, JSNum.lt, JSNum.gt, JSNum.add]
    intro _ _ h3
    linarith
  simp only [obstacleCallback]
  split_ifs with h1 h2 h2
  · rw [hc _ rfl] at h2
    simp at h2
  · rfl
  · rw [hc _ rfl] at h2
    simp at h2
  · rfl

theorem firstTick_running (dt : ℚ) (t : State) (hr : t.game.running = true)
    (ho : t.obstacles = [])
    (hsafe : min (t.game.speed + t.game.speedIncrement) t.game.maxSpeed ≤ t.player.y) :
    (update dt t).game.running = true := by
  have h3 : (updatePlayer (updateRoad (updateClock t))).obstacles = [] ∧
      (updatePlayer (updateRoad (updateClock t))).game.running = true ∧
      (updatePlayer (updateRoad (updateClock t))).game.speed =
        min (t.game.speed + t.game.speedIncrement) t.game.maxSpeed ∧
      (updatePlayer (updateRoad (updateClock t))).player.y = t.player.y ∧
      (updatePlayer (updateRoad (updateClock t))).player.height = t.player.height := by
    simp [updatePlayer, updateRoad, updateClock, ho, hr]
  obtain ⟨b1, b2, b3, b4, b5⟩ := h3
  have h4 := updateSpawn_fixed (updatePlayer (updateRoad (updateClock t)))
  have h6f := updateCoins_fixed
    (updateObstacles (updateSpawn (updatePlayer (updateRoad (updateClock t)))))
  have h7f := updateParticles_fixed (updateCoins
    (updateObstacles (updateSpawn (updatePlayer (updateRoad (updateClock t))))))
  simp only [update]
  rw [h7f.1, h6f.1]
  have hg : (updateObstacles (updateSpawn (updatePlayer (updateRoad (updateClock t))))).game =
      (updateSpawn (updatePlayer (updateRoad (updateClock t)))).game := by
    rcases updateSpawn_obstacles (updatePlayer (updateRoad (updateClock t))) with h | ⟨o, o1, o2, -, h⟩
    · rw [updateObstacles_nil _ (h.trans b1)]
    · rw [b1, List.nil_append] at h
      rw [updateObstacles_single _ o h]
      apply obstacleCallback_clear
      have e1 : (updateSpawn (updatePlayer (updateRoad (updateClock t)))).game.speed =
          min (t.game.speed + t.game.speedIncrement) t.game.maxSpeed := by
        rw [h4.1, b3]
      have e2 : (updateSpawn (updatePlayer (updateRoad (updateClock t)))).player.y =
          t.player.y := by
        have := h4.2.1
        simp only [fixedPart, Prod.mk.injEq] at this
        rw [this.2.1, b4]
      rw [e1, e2, o1, o2]
      linarith
  rw [hg, h4.1]
  exact b2

/-- C4 (amended): for each difficulty easy, medium, hard and every prior state,
the state `startGame` has built after its reset and `init()`, which is the state
its first frame starts from, has `(baseSpeed, maxSpeed)` equal to (2, 10),
(3, 15), (4, 20) respectively, `speed = baseSpeed`, `score = 0`,
`running = true`, `paused = false` and empty obstacle, coin and particle pools.
`startGame` then runs the first frame itself, so when it returns the speed
bounds are still those of the table, `paused = false` and the particle pool is
empty, but `speed = min(baseSpeed + speedIncrement, maxSpeed)`, the score is
`floor(speed / 10)`, the obstacle pool and the coin pool each hold at most one
entity, and `running = true` as long as that speed does not exceed
`canvas.height - player.height - 50`, the player's top edge. -/
theorem C4_startGame_postcondition (s : State)
    (hd : s.dom.difficulty = "easy" ∨ s.dom.difficulty = "medium" ∨
      s.dom.difficulty = "hard") :
    (((startGameReset s).game.baseSpeed, (startGameReset s).game.maxSpeed) =
        (if s.dom.difficulty = "easy" then ((2 : ℚ), (10 : ℚ))
          else if s.dom.difficulty = "medium" then (3, 15) else (4, 20)) ∧
      (startGameReset s).game.speed = (startGameReset s).game.baseSpeed ∧
      (startGameReset s).game.score = 0 ∧
      (startGameReset s).game.running = true ∧
      (startGameReset s).game.paused = false ∧
      (startGameReset s).obstacles = [] ∧
      (startGameReset s).coins = [] ∧
      (startGameReset s).particles = []) ∧
    (((startGame s).game.baseSpeed, (startGame s).game.maxSpeed) =
        (if s.dom.difficulty = "easy" then ((2 : ℚ), (10 : ℚ))
          else if s.dom.difficulty = "medium" then (3, 15) else (4, 20)) ∧
      (startGame s).game.paused = false ∧
      (startGame s).particles = [] ∧
      (startGame s).game.speed =
        min ((startGame s).game.baseSpeed + s.game.speedIncrement) (startGame s).game.maxSpeed ∧
      (startGame s).game.score = ⌊(startGame s).game.speed / 10⌋ ∧
      (startGame s).obstacles.length ≤ 1 ∧
      (startGame s).coins.length ≤ 1 ∧
      ((startGame s).game.speed ≤ s.canvas.height - s.player.height - 50 →
        (startGame s).game.running = true)) := by
  obtain ⟨htab, hinc, -, -, -⟩ := setDifficulty_table s.game s.dom.difficulty hd
  obtain ⟨rb, rm, ri, rs, rz, rr, rp, ro, rc, rq⟩ := startGameReset_fields s
  have htab0 : ((startGameReset s).game.baseSpeed, (startGameReset s).game.maxSpeed) =
      (if s.dom.difficulty = "easy" then ((2 : ℚ), (10 : ℚ))
        else if s.dom.difficulty = "medium" then (3, 15) else (4, 20)) := by
    rw [rb, rm]
    exact htab
  obtain ⟨c1, c2, c3, -, c5⟩ := startGame_clock s
  obtain ⟨u1, u2, u3, u4⟩ :=
    update_small (0 - (startGameReset s).lastTime) { startGameReset s with lastTime := 0 } rp
  refine ⟨⟨htab0, rs, rz, rr, rp, ro, rc, rq⟩, ?_, ?_, ?_, ?_, ?_, ?_, ?_, ?_⟩
  · rw [c2, c3]
    exact htab0
  · rw [startGame_eq]
    exact u1
  · rw [startGame_eq]
    exact u4 rq
  · rw [c1, c2, c3, ri, hinc]
  · rw [c5, c1]
  · rw [startGame_eq]
    refine le_trans u2 ?_
    show (startGameReset s).obstacles.length + 1 ≤ 1
    rw [ro]
    simp
  · rw [startGame_eq]
    refine le_trans u3 ?_
    show (startGameReset s).coins.length + 1 ≤ 1
    rw [rc]
    simp
  · intro hsafe
    rw [c1] at hsafe
    rw [startGame_eq]
    refine firstTick_running _ { startGameReset s with lastTime := 0 } rr ro ?_
    show min ((startGameReset s).game.speed + (startGameReset s).game.speedIncrement)
      (startGameReset s).game.maxSpeed ≤ (startGameReset s).player.y
    rw [rs]
    refine le_trans hsafe (le_of_eq ?_)
    simp [startGameReset, init]

theorem gameOver_skipState_dom : (gameOver skipState).dom.difficulty = "medium" := by
  simp [gameOver, playSound, skipState, demoDom, randomNext]

theorem gameOver_skipState_safe :
    (startGame (gameOver skipState)).game.speed ≤
      (gameOver skipState).canvas.height - (gameOver skipState).player.height - 50 := by
  have hf := (gameOver_fixed skipState).1
  simp only [fixedPart, Prod.mk.injEq] at hf
  obtain ⟨hc, hp, -⟩ := hf
  have hn := (gameOver_fixed skipState).2.1
  simp only [gameNumbers, Prod.mk.injEq] at hn
  rw [(startGame_clock (gameOver skipState)).1, hc, hp]
  have hb : (startGameReset (gameOver skipState)).game.baseSpeed = 3 := by
    simp [startGameReset, init, setDifficulty, gameOver_skipState_dom]
  have hm : (startGameReset (gameOver skipState)).game.maxSpeed = 15 := by
    simp [startGameReset, init, setDifficulty, gameOver_skipState_dom]
  have hi : (startGameReset (gameOver skipState)).game.speedIncrement = 1 / 1000 := by
    have : (startGameReset (gameOver skipState)).game.speedIncrement =
        (gameOver skipState).game.speedIncrement := by
      simp [startGameReset, init, setDifficulty, gameOver_skipState_dom]
    rw [this, hn.2.2.2.2]
    rfl
  rw [hb, hm, hi]
  norm_num [skipState]

/-- C4 (amended) at a prior state left by a game over with two obstacles in the
pool: the reset state has the Medium bounds, speed 3 and empty pools. -/
theorem C4_startGame_postcondition_witness :
    (gameOver skipState).dom.difficulty = "medium" ∧
    (gameOver skipState).obstacles.length = 2 ∧
    (startGameReset (gameOver skipState)).game.speed =
      (startGameReset (gameOver skipState)).game.baseSpeed ∧
    (startGameReset (gameOver skipState)).obstacles = [] ∧
    (startGame (gameOver skipState)).game.paused = false ∧
    (startGame (gameOver skipState)).obstacles.length ≤ 1 ∧
    (startGame (gameOver skipState)).game.running = true :=
  ⟨gameOver_skipState_dom, by rw [(gameOver_fixed skipState).2.2.1]; rfl,
   (C4_startGame_postcondition (gameOver skipState) (Or.inr (Or.inl gameOver_skipState_dom))).1.2.1,
   (C4_startGame_postcondition (gameOver skipState)
      (Or.inr (Or.inl gameOver_skipState_dom))).1.2.2.2.2.2.1,
   (C4_startGame_postcondition (gameOver skipState)
      (Or.inr (Or.inl gameOver_skipState_dom))).2.2.1,
   (C4_startGame_postcondition (gameOver skipState)
      (Or.inr (Or.inl gameOver_skipState_dom))).2.2.2.2.2.2.1,
   (C4_startGame_postcondition (gameOver skipState)
      (Or.inr (Or.inl gameOver_skipState_dom))).2.2.2.2.2.2.2.2 gameOver_skipState_safe⟩

/-- C4, counterexample: with `hard` chosen in the loaded script, the state
`startGame` returns does not satisfy the claimed postcondition: its speed is
4.001, not `baseSpeed = 4`. -/
theorem C4_counterexample :
    ¬ (((startGame (loadedState "hard" (1 / 2))).game.baseSpeed,
          (startGame (loadedState "hard" (1 / 2))).game.maxSpeed) = ((4 : ℚ), (20 : ℚ)) ∧
        (startGame (loadedState "hard" (1 / 2))).game.speed =
          (startGame (loadedState "hard" (1 / 2))).game.baseSpeed ∧
        (startGame (loadedState "hard" (1 / 2))).game.score = 0 ∧
        (startGame (loadedState "hard" (1 / 2))).game.running = true ∧
        (startGame (loadedState "hard" (1 / 2))).game.paused = false ∧
        (startGame (loadedState "hard" (1 / 2))).obstacles = [] ∧
        (startGame (loadedState "hard" (1 / 2))).coins = [] ∧
        (startGame (loadedState "hard" (1 / 2))).particles = []) := by
  obtain ⟨h1, h2, -⟩ := startGame_clock (loadedState "hard" (1 / 2))
  have hb : (startGame (loadedState "hard" (1 / 2))).game.baseSpeed = 4 := by
    rw [h2]
    simp [startGameReset, init, setDifficulty, loadedState, initialState, demoDom]
  have hs : (startGame (loadedState "hard" (1 / 2))).game.speed = 4001 / 1000 := by
    rw [h1]
    simp [startGameReset, init, setDifficulty, loadedState, initialState, demoDom]
    norm_num
  rintro ⟨-, h, -⟩
  rw [hb, hs] at h
  norm_num at h

/-! ## Pause toggle: claim C12 -/

/-- C12: when `running` is false `togglePause` changes nothing; when `running`
is true it flips `paused` and leaves `running`, the score, the speed, the best
score and the obstacle, coin and particle pools as they were, so that two
consecutive calls give back the original `game` object and pools; the whole
state is restored, the pause menu ending hidden exactly when the session is not
paused. -/
theorem C12_togglePause (s : State) :
    (s.game.running = false → togglePause s = s) ∧
    (s.game.running = true →
      ((togglePause s).game.paused = !s.game.paused ∧
        (togglePause s).game.running = s.game.running ∧
        (togglePause s).game.score = s.game.score ∧
        (togglePause s).game.speed = s.game.speed ∧
        (togglePause s).game.bestScore = s.game.bestScore ∧
        (togglePause s).obstacles = s.obstacles ∧
        (togglePause s).coins = s.coins ∧
        (togglePause s).particles = s.particles) ∧
      (togglePause (togglePause s)).game = s.game ∧
      togglePause (togglePause s) =
        { s with dom := { s.dom with pauseMenuHidden := !s.game.paused } } ∧
      (s.dom.pauseMenuHidden = (!s.game.paused) → togglePause (togglePause s) = s)) := by
  constructor
  · intro hr
    simp [togglePause, hr]
  · intro hr
    have h2 : togglePause (togglePause s) =
        { s with dom := { s.dom with pauseMenuHidden := !s.game.paused } } := by
      rcases s with ⟨cv, ⟨r, q, sc, b, sp, bs, ms, si, d, se⟩, pl, rd, ob, co, pa, ke, lt, dm,
        st, au, ra, rp, fr⟩
      simp only at hr
      subst hr
      cases q <;> simp [togglePause]
    refine ⟨?_, ?_, h2, ?_⟩
    · cases hp : s.game.paused <;> simp [togglePause, hr, hp]
    · rw [h2]
    · intro hm
      rw [h2, ← hm]

/-- C12 at the loaded script (not running), at a paused session and at a
running session whose pause menu is hidden. -/
theorem C12_togglePause_witness :
    (loadedState "medium" (1 / 2)).game.running = false ∧
    togglePause (loadedState "medium" (1 / 2)) = loadedState "medium" (1 / 2) ∧
    pausedState.game.running = true ∧
    (togglePause pausedState).game.paused = (!pausedState.game.paused) ∧
    (togglePause (togglePause pausedState)).game = pausedState.game ∧
    togglePause (togglePause (scoredState 0 0)) = scoredState 0 0 :=
  ⟨rfl, (C12_togglePause (loadedState "medium" (1 / 2))).1 rfl, rfl,
   ((C12_togglePause pausedState).2 rfl).1.1,
   ((C12_togglePause pausedState).2 rfl).2.1,
   ((C12_togglePause (scoredState 0 0)).2 rfl).2.2.2 rfl⟩

/-! ## Difficulty values outside the table: claim C11 -/

theorem setDifficulty_other (g : Game) (v : String)
    (hv : v ≠ "easy" ∧ v ≠ "medium" ∧ v ≠ "hard") :
    setDifficulty g v = { g with difficulty := v } := by
  simp [setDifficulty, hv.1, hv.2.1, hv.2.2]

/-- C11 (amended): for every difficulty value other than easy, medium or hard,
`startGame` neither rejects the start nor falls back to the Medium bounds: the
`switch` has no branch for the value, so the session is started (`running = true`
when the first frame begins, and still when `startGame` returns as long as the
speed does not exceed the player's top edge `canvas.height - player.height - 50`)
with `baseSpeed` and `maxSpeed` exactly as the prior state left them, and with
the speed started from that `baseSpeed`. -/
theorem C11_unknown_difficulty (s : State)
    (hv : s.dom.difficulty ≠ "easy" ∧ s.dom.difficulty ≠ "medium" ∧
      s.dom.difficulty ≠ "hard") :
    (startGameReset s).game.running = true ∧
    (startGameReset s).game.difficulty = s.dom.difficulty ∧
    (startGameReset s).game.baseSpeed = s.game.baseSpeed ∧
    (startGameReset s).game.maxSpeed = s.game.maxSpeed ∧
    (startGameReset s).game.speed = s.game.baseSpeed ∧
    (startGame s).game.baseSpeed = s.game.baseSpeed ∧
    (startGame s).game.maxSpeed = s.game.maxSpeed ∧
    (startGame s).game.speed =
      min (s.game.baseSpeed + s.game.speedIncrement) s.game.maxSpeed ∧
    ((startGame s).game.speed ≤ s.canvas.height - s.player.height - 50 →
      (startGame s).game.running = true) := by
  have hd := setDifficulty_other s.game s.dom.difficulty hv
  obtain ⟨rb, rm, ri, rs, -, rr, -, ro, -⟩ := startGameReset_fields s
  obtain ⟨c1, c2, c3, -, -⟩ := startGame_clock s
  rw [hd] at rb rm ri
  have hsp : (startGame s).game.speed =
      min (s.game.baseSpeed + s.game.speedIncrement) s.game.maxSpeed := by
    rw [c1, rb, rm, ri]
  refine ⟨rr, ?_, rb, rm, rs.trans rb, c2.trans rb, c3.trans rm, hsp, ?_⟩
  · simp [startGameReset, init, hd]
  · intro hsafe
    rw [c1] at hsafe
    rw [startGame_eq]
    refine firstTick_running _ { startGameReset s with lastTime := 0 } rr ro ?_
    show min ((startGameReset s).game.speed + (startGameReset s).game.speedIncrement)
      (startGameReset s).game.maxSpeed ≤ (startGameReset s).player.y
    rw [rs]
    refine le_trans hsafe (le_of_eq ?_)
    simp [startGameReset, init]

theorem loadedState_extreme_speed :
    (startGame (loadedState "extreme" (1 / 2))).game.speed = 2001 / 1000 := by
  rw [(startGame_clock (loadedState "extreme" (1 / 2))).1]
  simp [startGameReset, init, setDifficulty, loadedState, initialState, demoDom]
  norm_num

/-- C11 (amended) at the loaded script with the value `extreme` in the select. -/
theorem C11_unknown_difficulty_witness :
    ((loadedState "extreme" (1 / 2)).dom.difficulty ≠ "easy" ∧
      (loadedState "extreme" (1 / 2)).dom.difficulty ≠ "medium" ∧
      (loadedState "extreme" (1 / 2)).dom.difficulty ≠ "hard") ∧
    (startGameReset (loadedState "extreme" (1 / 2))).game.running = true ∧
    (startGame (loadedState "extreme" (1 / 2))).game.baseSpeed =
      (loadedState "extreme" (1 / 2)).game.baseSpeed ∧
    (startGame (loadedState "extreme" (1 / 2))).game.running = true :=
  ⟨by simp [loadedState, initialState, demoDom],
   (C11_unknown_difficulty (loadedState "extreme" (1 / 2))
      (by simp [loadedState, initialState, demoDom])).1,
   (C11_unknown_difficulty (loadedState "extreme" (1 / 2))
      (by simp [loadedState, initialState, demoDom])).2.2.2.2.2.1,
   (C11_unknown_difficulty (loadedState "extreme" (1 / 2))
      (by simp [loadedState, initialState, demoDom])).2.2.2.2.2.2.2.2
      (by rw [loadedState_extreme_speed]; norm_num [loadedState, initialState])⟩

/-- C11, counterexample: with the value `extreme` in the select of the loaded
script, `startGame` returns with the session running and with speed bounds
(2, 15), which are neither the Medium bounds nor any pair of the table. -/
theorem C11_counterexample :
    (loadedState "extreme" (1 / 2)).dom.difficulty = "extreme" ∧
    (startGame (loadedState "extreme" (1 / 2))).game.running = true ∧
    ((startGame (loadedState "extreme" (1 / 2))).game.baseSpeed,
      (startGame (loadedState "extreme" (1 / 2))).game.maxSpeed) = ((2 : ℚ), (15 : ℚ)) ∧
    ((2 : ℚ), (15 : ℚ)) ≠ (2, 10) ∧ ((2 : ℚ), (15 : ℚ)) ≠ (3, 15) ∧
    ((2 : ℚ), (15 : ℚ)) ≠ (4, 20) := by
  obtain ⟨-, c2, c3, -, -⟩ := startGame_clock (loadedState "extreme" (1 / 2))
  obtain ⟨-, -, -, -, -, rr, -, ro, -⟩ := startGameReset_fields (loadedState "extreme" (1 / 2))
  refine ⟨rfl, ?_, ?_, by norm_num, by norm_num, by norm_num⟩
  · rw [startGame_eq]
    refine firstTick_running _ { startGameReset (loadedState "extreme" (1 / 2)) with
      lastTime := 0 } rr ro ?_
    simp [startGameReset, init, setDifficulty, loadedState, initialState, demoDom]
    norm_num
  · rw [c2, c3]
    simp [startGameReset, init, setDifficulty, loadedState, initialState, demoDom]

/-! ## Off-screen pruning: claim C16 -/

theorem forEachFrom_inv_idx {α : Type} (arr : State → List α) (cb : α → Nat → State → State)
    (P : Nat → State → Prop)
    (hstep : ∀ a k s, (arr s)[k]? = some a → P k s → P (k + 1) (cb a k s))
    (hskip : ∀ k s, (arr s)[k]? = none → P k s → P (k + 1) s) :
    ∀ n k s, P k s → P (k + n) (forEachFrom arr cb n k s) := by
  intro n
  induction n with
  | zero => intro k s hs; exact hs
  | succ n ih =>
    intro k s hs
    simp only [forEachFrom]
    have e : k + (n + 1) = k + 1 + n := by omega
    rw [e]
    cases hk : (arr s)[k]? with
    | none => exact ih (k + 1) s (hskip k s hk hs)
    | some a => exact ih (k + 1) (cb a k s) (hstep a k s hk hs)

theorem eraseIdx_set_self {α : Type} (l : List α) (k : Nat) (a : α) :
    (l.set k a).eraseIdx k = l.eraseIdx k := by
  induction l generalizing k with
  | nil => rfl
  | cons x xs ih =>
    cases k with
    | zero => rfl
    | succ k => simp [List.set, List.eraseIdx, ih]

/-- The obstacle pool after one call of the callback. -/
theorem obstacleCallback_obstacles (o : Obstacle) (k : Nat) (s : State) :
    (obstacleCallback o k s).obstacles =
      (if o.y + s.game.speed > s.canvas.height then s.obstacles.eraseIdx k
        else s.obstacles.set k { o with y := o.y + s.game.speed }) := by
  simp only [obstacleCallback]
  split_ifs <;> simp [gameOver_fixed, eraseIdx_set_self]

theorem updateObstacles_pruned (s : State) (h : ∀ o ∈ s.obstacles, o.y ≤ s.canvas.height) :
    ∀ o ∈ (updateObstacles s).obstacles, o.y ≤ s.canvas.height := by
  have key := forEachFrom_inv (fun s => s.obstacles) obstacleCallback
    (fun t => t.canvas = s.canvas ∧ ∀ o ∈ t.obstacles, o.y ≤ s.canvas.height)
    (fun a k t ht => by
      obtain ⟨hc, hall⟩ := ht
      have hf := (obstacleCallback_fixed a k t).1
      simp only [fixedPart, Prod.mk.injEq] at hf
      refine ⟨hf.1.trans hc, ?_⟩
      rw [obstacleCallback_obstacles, hc]
      split_ifs with hgt
      · intro o ho
        exact hall o (List.mem_of_mem_eraseIdx ho)
      · intro o ho
        rcases List.mem_or_eq_of_mem_set ho with h1 | h1
        · exact hall o h1
        · rw [h1]
          exact not_lt.mp hgt)
    s.obstacles.length 0 s ⟨rfl, h⟩
  exact key.2

/-- The pool the obstacle pass starts from, and the pool `update` ends with. -/
theorem update_obstacles_eq (dt : ℚ) (s : State) :
    (update dt s).obstacles =
      (updateObstacles (updateSpawn (updatePlayer (updateRoad (updateClock s))))).obstacles ∧
    (update dt s).game =
      (updateObstacles (updateSpawn (updatePlayer (updateRoad (updateClock s))))).game ∧
    ((updateSpawn (updatePlayer (updateRoad (updateClock s)))).obstacles = s.obstacles ∨
      ∃ o : Obstacle, o.y = -s.player.height ∧ o.height = s.player.height ∧
        o.width = s.player.width ∧
        (updateSpawn (updatePlayer (updateRoad (updateClock s)))).obstacles =
          s.obstacles ++ [o]) ∧
    (updateSpawn (updatePlayer (updateRoad (updateClock s)))).canvas = s.canvas ∧
    (updateSpawn (updatePlayer (updateRoad (updateClock s)))).player = (update dt s).player ∧
    (updateSpawn (updatePlayer (updateRoad (updateClock s)))).game.speed =
      (update dt s).game.speed ∧
    (updateSpawn (updatePlayer (updateRoad (updateClock s)))).game.running =
      s.game.running := by
  have h6f := updateCoins_fixed
    (updateObstacles (updateSpawn (updatePlayer (updateRoad (updateClock s)))))
  have h7f := updateParticles_fixed (updateCoins
    (updateObstacles (updateSpawn (updatePlayer (updateRoad (updateClock s))))))
  have h4 := updateSpawn_fixed (updatePlayer (updateRoad (updateClock s)))
  have hf := h4.2.1
  simp only [fixedPart, Prod.mk.injEq] at hf
  obtain ⟨f1, f2, -, -, -, f6⟩ := hf
  obtain ⟨u1, -, -, -, -, -, u7, -⟩ := update_core dt s
  have hsp := updateSpawn_obstacles (updatePlayer (updateRoad (updateClock s)))
  refine ⟨?_, ?_, hsp, ?_, ?_, ?_, ?_⟩
  · simp only [update]
    rw [h7f.2.2.2.1, h6f.2.2.2.1]
  · simp only [update]
    rw [h7f.1, h6f.1]
  · rw [f1]
    rfl
  · rw [f2, u7]
    rfl
  · rw [f6, u1]
    rfl
  · rw [h4.1]
    rfl

/-- C16: if before an `update` tick every obstacle in the pool has
`y ≤ canvas.height`, and a fresh obstacle's `y = -player.height` is not below
the canvas either (as with the script's 70 and 600), then after the tick every
obstacle remaining in the pool has `y ≤ canvas.height`, whatever the size and
order of the pool; and every obstacle `spawnObstacle` adds is created at
`y = -player.height`, so it satisfies the hypothesis. -/
theorem C16_offscreen_pruning (dt : ℚ) (s : State)
    (h : ∀ o ∈ s.obstacles, o.y ≤ s.canvas.height)
    (hs : -s.player.height ≤ s.canvas.height) :
    (∀ o ∈ (update dt s).obstacles, o.y ≤ (update dt s).canvas.height) ∧
    (∀ o ∈ (spawnObstacle s).obstacles, o ∈ s.obstacles ∨ o.y = -s.player.height) ∧
    (∀ o ∈ (spawnObstacle s).obstacles, o.y ≤ (spawnObstacle s).canvas.height) := by
  have hsp : ∀ o ∈ (spawnObstacle s).obstacles, o ∈ s.obstacles ∨ o.y = -s.player.height := by
    intro o ho
    simp only [spawnObstacle, randomNext, List.mem_append, List.mem_singleton] at ho
    rcases ho with h1 | h1
    · exact Or.inl h1
    · exact Or.inr (by rw [h1])
  refine ⟨?_, hsp, ?_⟩
  · obtain ⟨e1, -, e3, e4, -⟩ := update_obstacles_eq dt s
    rw [e1, (update_core dt s).2.2.2.2.2.1, ← e4]
    apply updateObstacles_pruned
    rw [e4]
    rcases e3 with h3 | ⟨o, o1, -, -, h3⟩
    · rw [h3]
      exact h
    · rw [h3]
      intro x hx
      rcases List.mem_append.mp hx with h5 | h5
      · exact h x h5
      · rw [List.mem_singleton.mp h5, o1]
        exact hs
  · intro o ho
    have hc : (spawnObstacle s).canvas = s.canvas := by
      simp [spawnObstacle, randomNext]
    rw [hc]
    rcases hsp o ho with h1 | h1
    · exact h o h1
    · rw [h1]
      exact hs

/-- C16 at the two-obstacle pool of `skipState`, where the first obstacle leaves
the canvas during the tick. -/
theorem C16_offscreen_pruning_witness :
    (∀ o ∈ skipState.obstacles, o.y ≤ skipState.canvas.height) ∧
    -skipState.player.height ≤ skipState.canvas.height ∧
    (∀ o ∈ (update 0 skipState).obstacles, o.y ≤ (update 0 skipState).canvas.height) :=
  ⟨by simp [skipState]; norm_num, by norm_num [skipState],
   (C16_offscreen_pruning 0 skipState (by simp [skipState]; norm_num)
      (by norm_num [skipState])).1⟩

/-! ## Particle pool invariant: claim C15 -/

/-- The particle pool after one call of the callback. -/
theorem particleCallback_particles (p : Particle) (k : Nat) (s : State) :
    (particleCallback p k s).particles =
      (if p.life - 1 ≤ 0 then s.particles.eraseIdx k
        else s.particles.set k
          { p with y := p.y + p.speedY, x := p.x + p.speedX, life := p.life - 1,
                   alpha := (p.life - 1) / 30 }) := by
  simp only [particleCallback]
  split_ifs <;> simp [eraseIdx_set_self]

theorem updateParticles_alive (s : State)
    (h : ∀ p ∈ s.particles, (∃ n : ℤ, 1 ≤ n ∧ p.life = n) ∧ p.alpha = p.life / 30) :
    ∀ p ∈ (updateParticles s).particles,
      (∃ n : ℤ, 1 ≤ n ∧ p.life = n) ∧ p.alpha = p.life / 30 := by
  have key := forEachFrom_inv_idx (fun s => s.particles) particleCallback
    (fun _ t => ∀ p ∈ t.particles, (∃ n : ℤ, 1 ≤ n ∧ p.life = n) ∧ p.alpha = p.life / 30)
    (fun a k t hk ht => by
      have ha : a ∈ t.particles := List.getElem?_mem hk
      obtain ⟨⟨n, hn, hl⟩, -⟩ := ht a ha
      show ∀ p ∈ (particleCallback a k t).particles, _
      rw [particleCallback_particles]
      split_ifs with hle
      · intro p hp
        exact ht p (List.mem_of_mem_eraseIdx hp)
      · intro p hp
        rcases List.mem_or_eq_of_mem_set hp with h1 | h1
        · exact ht p h1
        · rw [h1]
          refine ⟨⟨n - 1, ?_, ?_⟩, rfl⟩
          · have h0 : (0 : ℚ) < ((n - 1 : ℤ) : ℚ) := by
              push_cast
              rw [← hl]
              exact not_le.mp hle
            have h1 : (0 : ℤ) < n - 1 := by exact_mod_cast h0
            omega
          · show a.life - 1 = ((n - 1 : ℤ) : ℚ)
            rw [hl]
            push_cast
            rfl)
    (fun k t _ ht => ht)
    s.particles.length 0 s h
  exact key

/-- C15: if before an `update` tick every particle in the pool has an integer
`life ≥ 1` and `alpha = life / 30`, then after the tick every particle that
remains in the pool again has an integer `life ≥ 1` and `alpha = life / 30`; in
particular none is left with `life ≤ 0`, however many particles expire in that
tick. -/
theorem C15_particle_invariant (dt : ℚ) (s : State)
    (h : ∀ p ∈ s.particles, (∃ n : ℤ, 1 ≤ n ∧ p.life = n) ∧ p.alpha = p.life / 30) :
    ∀ p ∈ (update dt s).particles,
      (∃ n : ℤ, 1 ≤ n ∧ p.life = n) ∧ p.alpha = p.life / 30 ∧ ¬ p.life ≤ 0 := by
  have h4 := updateSpawn_fixed (updatePlayer (updateRoad (updateClock s)))
  have h5 := updateObstacles_fixed (updateSpawn (updatePlayer (updateRoad (updateClock s))))
  have h6 := updateCoins_fixed
    (updateObstacles (updateSpawn (updatePlayer (updateRoad (updateClock s)))))
  have hp : (updateCoins (updateObstacles (updateSpawn (updatePlayer (updateRoad
      (updateClock s)))))).particles = s.particles := by
    rw [h6.2.2.2.2.1, h5.2.2.2.1, h4.2.2.1]
    rfl
  have key := updateParticles_alive (updateCoins (updateObstacles (updateSpawn (updatePlayer
    (updateRoad (updateClock s)))))) (by rw [hp]; exact h)
  intro p hmem
  obtain ⟨⟨n, hn, hl⟩, ha⟩ := key p hmem
  refine ⟨⟨n, hn, hl⟩, ha, ?_⟩
  rw [hl, not_le]
  exact_mod_cast (by omega : (0 : ℤ) < n)

theorem sparkState_alive :
    ∀ p ∈ sparkState.particles, (∃ n : ℤ, 1 ≤ n ∧ p.life = n) ∧ p.alpha = p.life / 30 := by
  intro p hp
  simp only [sparkState, List.mem_cons, List.mem_singleton, List.not_mem_nil, or_false] at hp
  rcases hp with h | h | h
  · rw [h]
    exact ⟨⟨1, le_refl _, by norm_num⟩, rfl⟩
  · rw [h]
    exact ⟨⟨1, le_refl _, by norm_num⟩, rfl⟩
  · rw [h]
    exact ⟨⟨29, by norm_num, by norm_num⟩, rfl⟩

/-- C15 at a pool where two particles are in their last tick. -/
theorem C15_particle_invariant_witness :
    (∀ p ∈ sparkState.particles,
      (∃ n : ℤ, 1 ≤ n ∧ p.life = n) ∧ p.alpha = p.life / 30) ∧
    (∀ p ∈ (update 0 sparkState).particles,
      (∃ n : ℤ, 1 ≤ n ∧ p.life = n) ∧ p.alpha = p.life / 30 ∧ ¬ p.life ≤ 0) :=
  ⟨sparkState_alive, C15_particle_invariant 0 sparkState sparkState_alive⟩

/-! ## The obstacle pass against map-then-filter: claim C13 -/

/-- C13, the code at the failing input: the obstacle pass of the tick from
`skipState` starts from the pool [(180, 599), (100, 470)] at speed 3.001 on a
600 high canvas. Advancing every obstacle once and then removing those with
`y > 600` gives [(100, 473.001)]; the pass of the source leaves [(100, 470)]:
the second obstacle was never advanced. -/
theorem C13_pass_is_not_map_filter :
    (updateSpawn (updatePlayer (updateRoad (updateClock skipState)))).obstacles =
      [{ x := 180, y := 599, width := 40, height := 70, color := some "#e74c3c" },
       { x := 100, y := 470, width := 40, height := 70, color := some "#3498db" }] ∧
    obstaclePassSpec
        (updateSpawn (updatePlayer (updateRoad (updateClock skipState)))).game.speed
        (updateSpawn (updatePlayer (updateRoad (updateClock skipState)))).canvas.height
        (updateSpawn (updatePlayer (updateRoad (updateClock skipState)))).obstacles =
      [{ x := 100, y := 473001 / 1000, width := 40, height := 70, color := some "#3498db" }] ∧
    (updateObstacles (updateSpawn (updatePlayer (updateRoad
        (updateClock skipState))))).obstacles =
      [{ x := 100, y := 470, width := 40, height := 70, color := some "#3498db" }] ∧
    (updateObstacles (updateSpawn (updatePlayer (updateRoad
        (updateClock skipState))))).obstacles ≠
      obstaclePassSpec
        (updateSpawn (updatePlayer (updateRoad (updateClock skipState)))).game.speed
        (updateSpawn (updatePlayer (updateRoad (updateClock skipState)))).canvas.height
        (updateSpawn (updatePlayer (updateRoad (updateClock skipState)))).obstacles := by
  have hspec : obstaclePassSpec
        (updateSpawn (updatePlayer (updateRoad (updateClock skipState)))).game.speed
        (updateSpawn (updatePlayer (updateRoad (updateClock skipState)))).canvas.height
        (updateSpawn (updatePlayer (updateRoad (updateClock skipState)))).obstacles =
      [{ x := 100, y := 473001 / 1000, width := 40, height := 70,
         color := some "#3498db" }] := by
    rw [skipState_pre]
    simp [obstaclePassSpec, skipState, List.filter]
    norm_num
  have hcode : (updateObstacles (updateSpawn (updatePlayer (updateRoad
        (updateClock skipState))))).obstacles =
      [{ x := 100, y := 470, width := 40, height := 70, color := some "#3498db" }] := by
    rw [← (update_obstacles_eq 0 skipState).1, skipState_update]
  refine ⟨by rw [skipState_pre]; rfl, hspec, hcode, ?_⟩
  rw [hspec, hcode]
  simp
  norm_num

/-! ## The game-over message: claim C14 -/

theorem messages_middle :
    jsIndex messages ⌊(1 / 2 : ℚ) * (messages.length : ℚ)⌋ = some "You can do better!" := by
  have hf : ⌊(1 / 2 : ℚ) * ((5 : ℕ) : ℚ)⌋ = 2 := by
    rw [Int.floor_eq_iff]
    norm_num
  have hl : messages.length = 5 := rfl
  rw [hl, hf]
  rfl

theorem doubleHitState_pre :
    updateSpawn (updatePlayer (updateRoad (updateClock doubleHitState))) =
      { doubleHitState with
        game := { doubleHitState.game with speed := 3001 / 1000 }
        player := { doubleHitState.player with x := 132 }
        road := { doubleHitState.road with offset := 3001 / 1000 }
        randPos := 2 } := by
  simp [updateSpawn, updatePlayer, updateRoad, updateClock, randomValue, randomNext,
    doubleHitState]
  norm_num

theorem doubleHitState_update :
    update 0 doubleHitState =
      { doubleHitState with
        game := { doubleHitState.game with
          speed := 3001 / 1000, running := false, bestScore := 50 }
        player := { doubleHitState.player with x := 132 }
        road := { doubleHitState.road with offset := 3001 / 1000 }
        randPos := 3
        obstacles :=
          [{ x := 100, y := 503001 / 1000, width := 40, height := 70, color := some "#e74c3c" },
           { x := 100, y := 443001 / 1000, width := 40, height := 70, color := some "#3498db" }]
        dom := { doubleHitState.dom with
          gameOverHidden := false, gameOverMessage := some "You can do better!" }
        storage := [50]
        audio := ["crash", "crash"] } := by
  have h : updateObstacles (updateSpawn (updatePlayer (updateRoad (updateClock doubleHitState)))) =
      { doubleHitState with
        game := { doubleHitState.game with
          speed := 3001 / 1000, running := false, bestScore := 50 }
        player := { doubleHitState.player with x := 132 }
        road := { doubleHitState.road with offset := 3001 / 1000 }
        randPos := 3
        obstacles :=
          [{ x := 100, y := 503001 / 1000, width := 40, height := 70, color := some "#e74c3c" },
           { x := 100, y := 443001 / 1000, width := 40, height := 70, color := some "#3498db" }]
        dom := { doubleHitState.dom with
          gameOverHidden := false, gameOverMessage := some "You can do better!" }
        storage := [50]
        audio := ["crash", "crash"] } := by
    rw [doubleHitState_pre]
    simp only [updateObstacles, forEach, doubleHitState, List.length_cons, List.length_nil]
    simp only [forEachFrom]
    simp [obstacleCallback, checkCollision, Player.rect, Obstacle.rect,
      JSNum.lt, JSNum.gt, JSNum.add, gameOver, playSound, randomValue, randomNext]
    norm_num
    exact messages_middle
  simp only [update, h]
  simp only [updateCoins, updateParticles, forEach, doubleHitState, List.length_nil, forEachFrom]

/-- C14, the code at the failing input: the tick from `doubleHitState` ends the
session with score 50 over a best score of 0. Both obstacles of lane 1 overlap
the player, so `gameOver` runs twice (two crash cues): the first call stores the
new best score 50 and writes the new-best message, the second finds the score no
longer above the best score and replaces the message by a try-again one. -/
theorem C14_new_best_overwritten :
    doubleHitState.game.running = true ∧
    doubleHitState.game.bestScore < (update 0 doubleHitState).game.score ∧
    (update 0 doubleHitState).game.running = false ∧
    (update 0 doubleHitState).game.bestScore = 50 ∧
    (update 0 doubleHitState).storage = [50] ∧
    (update 0 doubleHitState).audio = ["crash", "crash"] ∧
    (update 0 doubleHitState).dom.gameOverMessage = some "You can do better!" ∧
    (update 0 doubleHitState).dom.gameOverMessage ≠ some newBestMessage := by
  rw [doubleHitState_update]
  refine ⟨rfl, ?_, rfl, rfl, rfl, rfl, rfl, ?_⟩
  · show (0 : Int) < 50
    norm_num
  · simp [newBestMessage]

/-! ## No spurious game over: claim C17 -/

theorem obstacleCallback_running (o : Obstacle) (k : Nat) (s : State)
    (h : (obstacleCallback o k s).game.running = false) :
    s.game.running = false ∨
      checkCollision s.player.rect (Obstacle.rect { o with y := o.y + s.game.speed }) = true := by
  by_cases hc : checkCollision s.player.rect
      (Obstacle.rect { o with y := o.y + s.game.speed }) = true
  · exact Or.inr hc
  · left
    simp only [obstacleCallback] at h
    split_ifs at h <;> exact h

/-- When the obstacle pass ends a running session, some obstacle of the pool it
started from, advanced by the speed, overlaps the player. -/
theorem updateObstacles_cause (s : State) (hr : s.game.running = true)
    (h : (updateObstacles s).game.running = false) :
    ∃ o ∈ s.obstacles,
      checkCollision s.player.rect (Obstacle.rect { o with y := o.y + s.game.speed }) = true := by
  have key := forEachFrom_inv_idx (fun s => s.obstacles) obstacleCallback
    (fun k t => t.player = s.player ∧ t.game.speed = s.game.speed ∧
      (∀ j, k ≤ j → ∀ o, t.obstacles[j]? = some o → o ∈ s.obstacles) ∧
      (t.game.running = false → ∃ o ∈ s.obstacles,
        checkCollision s.player.rect (Obstacle.rect { o with y := o.y + s.game.speed }) = true))
    (fun a k t hk ht => by
      obtain ⟨hp, hv, hidx, hrun⟩ := ht
      have hf := (obstacleCallback_fixed a k t).1
      simp only [fixedPart, Prod.mk.injEq] at hf
      obtain ⟨-, f2, -, -, -, f6⟩ := hf
      refine ⟨f2.trans hp, f6.trans hv, ?_, ?_⟩
      · intro j hj o ho
        rw [obstacleCallback_obstacles] at ho
        split_ifs at ho
        · rw [List.getElem?_eraseIdx_of_ge _ _ _ (by omega)] at ho
          exact hidx (j + 1) (by omega) o ho
        · rw [List.getElem?_set_ne (by omega)] at ho
          exact hidx j (by omega) o ho
      · intro hfalse
        rcases obstacleCallback_running a k t hfalse with h1 | h1
        · exact hrun h1
        · rw [hp, hv] at h1
          exact ⟨a, hidx k (le_refl k) a hk, h1⟩)
    (fun k t _ ht => ⟨ht.1, ht.2.1, fun j hj o ho => ht.2.2.1 j (by omega) o ho, ht.2.2.2⟩)
    s.obstacles.length 0 s
    ⟨rfl, rfl, fun j _ o ho => List.getElem?_mem ho, fun hf => by rw [hr] at hf; cases hf⟩
  exact key.2.2.2 h

/-- C17: if an `update` tick starts with `running = true` and ends with
`running = false`, then some obstacle of the pool the obstacle pass started from
(the pool before the tick, plus the obstacle spawned in this tick if any), at
its position after being advanced by the speed of the tick, overlaps the
player's rectangle at the position the player has after this tick's move and
clamp. -/
theorem C17_no_spurious_gameOver (dt : ℚ) (s : State) (h1 : s.game.running = true)
    (h2 : (update dt s).game.running = false) :
    ((updateSpawn (updatePlayer (updateRoad (updateClock s)))).obstacles = s.obstacles ∨
      ∃ o : Obstacle, o.y = -s.player.height ∧ o.height = s.player.height ∧
        o.width = s.player.width ∧
        (updateSpawn (updatePlayer (updateRoad (updateClock s)))).obstacles =
          s.obstacles ++ [o]) ∧
    (update dt s).player = (updatePlayer s).player ∧
    ∃ o ∈ (updateSpawn (updatePlayer (updateRoad (updateClock s)))).obstacles,
      checkCollision (update dt s).player.rect
        (Obstacle.rect { o with y := o.y + (update dt s).game.speed }) = true := by
  obtain ⟨-, e2, e3, -, e5, e6, e7⟩ := update_obstacles_eq dt s
  refine ⟨e3, (update_core dt s).2.2.2.2.2.2.1, ?_⟩
  rw [e2] at h2
  have hc := updateObstacles_cause (updateSpawn (updatePlayer (updateRoad (updateClock s))))
    (e7.trans h1) h2
  rw [e5, e6] at hc
  exact hc

/-- C17 at the tick from `doubleHitState`, which ends the session. -/
theorem C17_no_spurious_gameOver_witness :
    doubleHitState.game.running = true ∧
    (update 0 doubleHitState).game.running = false ∧
    ∃ o ∈ (updateSpawn (updatePlayer (updateRoad (updateClock doubleHitState)))).obstacles,
      checkCollision (update 0 doubleHitState).player.rect
        (Obstacle.rect { o with y := o.y + (update 0 doubleHitState).game.speed }) = true :=
  ⟨rfl, by rw [doubleHitState_update],
   (C17_no_spurious_gameOver 0 doubleHitState rfl (by rw [doubleHitState_update])).2.2⟩

end BinkRacing
